import Mathlib

/-!
# Verification of the avianis-etl flight-leg pipeline

Shallow embedding of the flight-leg transformation and load pipeline
(`data_utils.py`, `transformers/flight_transformer.py`,
`loaders/flight_loader.py`, `loaders/crew_assignment_loader.py`,
`lookup_service.py`) together with proofs about the embedded code.

Modelling conventions:
* machine integers are `Nat`/`Int` with explicit `% 2^32` where the source
  relies on 32-bit wraparound (the SHA-256 core);
* `datetime` values are seconds since a fixed epoch (`Nat`); a calendar day
  is `t / 86400`, the hour of day is `t % 86400 / 3600`; date-only strings
  (`YYYY-MM-DD`) are modelled as day numbers, and `parse_iso_datetime` on a
  date-only string yields midnight of that day (`d * 86400`);
* timestamp fields of an input record hold the result of the source's
  "safe" parse: `none` covers both an absent field and an unparseable one
  (the source treats the two identically);
* Python floats produced by `total_seconds() / 60` are modelled as `ℚ`;
* Python truthiness of optional ids and strings (`if tail_number`,
  `not aircraft_id`) is modelled explicitly: `None`, `0` and `""` are falsy;
* fallible paths return `Except`/`Option`.
-/

/-! ## SHA-256 (`hashlib.sha256`), byte-level model

The stable-id generator hashes the UTF-8 bytes of the external id with
SHA-256 and keeps the first four digest bytes.  The hash itself is embedded
bit-faithfully: all words are `Nat` reduced mod `2^32`.
-/

namespace Sha256

/-- 2^32, the modulus of all 32-bit word arithmetic in SHA-256. -/
def w32 : Nat := 4294967296

/-- 32-bit rotate right by `k`. -/
def rotr (k n : Nat) : Nat := ((n >>> k) ||| (n <<< (32 - k))) % w32

/-- 32-bit addition. -/
def add32 (a b : Nat) : Nat := (a + b) % w32

/-- Σ₀ of the compression function. -/
def bigSigma0 (x : Nat) : Nat := (rotr 2 x) ^^^ (rotr 13 x) ^^^ (rotr 22 x)

/-- Σ₁ of the compression function. -/
def bigSigma1 (x : Nat) : Nat := (rotr 6 x) ^^^ (rotr 11 x) ^^^ (rotr 25 x)

/-- σ₀ of the message schedule. -/
def smallSigma0 (x : Nat) : Nat := (rotr 7 x) ^^^ (rotr 18 x) ^^^ (x >>> 3)

/-- σ₁ of the message schedule. -/
def smallSigma1 (x : Nat) : Nat := (rotr 17 x) ^^^ (rotr 19 x) ^^^ (x >>> 10)

/-- Ch(x,y,z); ¬x on 32 bits is x xor (2^32 − 1). -/
def ch (x y z : Nat) : Nat := (x &&& y) ^^^ ((x ^^^ 4294967295) &&& z)

/-- Maj(x,y,z). -/
def maj (x y z : Nat) : Nat := (x &&& y) ^^^ (x &&& z) ^^^ (y &&& z)

/-- The 64 round constants. -/
def K : List Nat :=
  [1116352408, 1899447441, 3049323471, 3921009573, 961987163, 1508970993, 2453635748, 2870763221,
   3624381080, 310598401, 607225278, 1426881987, 1925078388, 2162078206, 2614888103, 3248222580,
   3835390401, 4022224774, 264347078, 604807628, 770255983, 1249150122, 1555081692, 1996064986,
   2554220882, 2821834349, 2952996808, 3210313671, 3336571891, 3584528711, 113926993, 338241895,
   666307205, 773529912, 1294757372, 1396182291, 1695183700, 1986661051, 2177026350, 2456956037,
   2730485921, 2820302411, 3259730800, 3345764771, 3516065817, 3600352804, 4094571909, 275423344,
   430227734, 506948616, 659060556, 883997877, 958139571, 1322822218, 1537002063, 1747873779,
   1955562222, 2024104815, 2227730452, 2361852424, 2428436474, 2756734187, 3204031479, 3329325298]

/-- Initial hash state. -/
def H0 : List Nat :=
  [1779033703, 3144134277, 1013904242, 2773480762, 1359893119, 2600822924, 528734635, 1541459225]

/-- `k` big-endian bytes of `n` (most significant first). -/
def beBytes : Nat → Nat → List Nat
  | 0, _ => []
  | k + 1, n => beBytes k (n / 256) ++ [n % 256]

/-- SHA-256 padding: append `128`, zero bytes, and the 64-bit big-endian
bit length, so the total length is a multiple of 64 bytes. -/
def padMessage (msg : List Nat) : List Nat :=
  let padZeros := (119 - msg.length % 64) % 64
  msg ++ [128] ++ List.replicate padZeros 0 ++ beBytes 8 (msg.length * 8)

/-- Group bytes into 32-bit big-endian words. -/
def toWords : List Nat → List Nat
  | b0 :: b1 :: b2 :: b3 :: rest => (((b0 * 256 + b1) * 256 + b2) * 256 + b3) :: toWords rest
  | _ => []

/-- Extend the message schedule by `k` more words; `acc` holds the words
produced so far, most recent first. -/
def extendSchedule : Nat → List Nat → List Nat
  | 0, acc => acc.reverse
  | k + 1, acc =>
    let nw := add32 (add32 (smallSigma1 (acc.getD 1 0)) (acc.getD 6 0))
                    (add32 (smallSigma0 (acc.getD 14 0)) (acc.getD 15 0))
    extendSchedule k (nw :: acc)

/-- One compression round per `(Kᵢ, Wᵢ)` pair over the working state
`(a,b,c,d,e,f,g,h)`. -/
def compressRounds :
    List (Nat × Nat) → Nat × Nat × Nat × Nat × Nat × Nat × Nat × Nat →
    Nat × Nat × Nat × Nat × Nat × Nat × Nat × Nat
  | [], st => st
  | (ki, wi) :: rest, (a, b, c, d, e, f, g, h) =>
    let t1 := add32 h (add32 (bigSigma1 e) (add32 (ch e f g) (add32 ki wi)))
    let t2 := add32 (bigSigma0 a) (maj a b c)
    compressRounds rest (add32 t1 t2, a, b, c, add32 d t1, e, f, g)

/-- Compress one 16-word chunk into the hash state. -/
def compress (hs : List Nat) (chunk : List Nat) : List Nat :=
  let w := extendSchedule 48 chunk.reverse
  let st0 := (hs.getD 0 0, hs.getD 1 0, hs.getD 2 0, hs.getD 3 0,
              hs.getD 4 0, hs.getD 5 0, hs.getD 6 0, hs.getD 7 0)
  match compressRounds (K.zip w) st0 with
  | (a, b, c, d, e, f, g, h) =>
    [add32 (hs.getD 0 0) a, add32 (hs.getD 1 0) b, add32 (hs.getD 2 0) c,
     add32 (hs.getD 3 0) d, add32 (hs.getD 4 0) e, add32 (hs.getD 5 0) f,
     add32 (hs.getD 6 0) g, add32 (hs.getD 7 0) h]

/-- Fold the compression function over successive 16-word chunks.  The first
argument is structural fuel; a call with fuel ≥ the number of chunks
consumes the whole word list. -/
def processChunks : Nat → List Nat → List Nat → List Nat
  | 0, hs, _ => hs
  | _ + 1, hs, [] => hs
  | fuel + 1, hs, wd :: rest =>
    processChunks fuel (compress hs (wd :: rest.take 15)) (rest.drop 15)

/-- The SHA-256 digest (32 bytes) of a byte string. -/
def sha256 (msg : List Nat) : List Nat :=
  let ws := toWords (padMessage msg)
  (processChunks ws.length H0 ws).foldr (fun wd acc => beBytes 4 wd ++ acc) []

end Sha256

/-! ## `data_utils.generate_stable_id` -/

/-- UTF-8 encoding of one character (`str.encode('utf-8')`, per code point). -/
def utf8EncodeChar (c : Char) : List Nat :=
  let n := c.toNat
  if n < 128 then [n]
  else if n < 2048 then [192 + n / 64, 128 + n % 64]
  else if n < 65536 then [224 + n / 4096, 128 + (n / 64) % 64, 128 + n % 64]
  else [240 + n / 262144, 128 + (n / 4096) % 64, 128 + (n / 64) % 64, 128 + n % 64]

/-- UTF-8 encoding of a string as a byte list. -/
def utf8Encode (s : String) : List Nat :=
  s.data.foldr (fun c acc => utf8EncodeChar c ++ acc) []

/-- `int.from_bytes(bs, byteorder='big')`. -/
def bytesToNatBE (bs : List Nat) : Nat := bs.foldl (fun a b => a * 256 + b) 0

/-- `data_utils.generate_stable_id`: SHA-256 the external id, take the first
4 digest bytes as a big-endian integer, reduce modulo `max_id − min_id + 1`
and add `min_id`.  A pure function of its arguments (determinism is
intrinsic: the same string always yields the same integer). -/
def generate_stable_id (fms_id : String) (min_id max_id : Nat) : Nat :=
  let hash_bytes := (Sha256.sha256 (utf8Encode fms_id)).take 4
  let hash_int := bytesToNatBE hash_bytes
  let range_size := max_id - min_id + 1
  hash_int % range_size + min_id

/-- `generate_stable_id` with the source's default 6-digit range. -/
def generateStableId6 (fms_id : String) : Nat := generate_stable_id fms_id 100000 999999

/-- The claim's formula for the stable id: the big-endian unsigned integer
formed from the first 4 bytes of SHA-256 of the external id, reduced modulo
`(max − min + 1)`, plus `min`. -/
def stableIdClaimFormula (external_id : String) (min_id max_id : Nat) : Nat :=
  bytesToNatBE ((Sha256.sha256 (utf8Encode external_id)).take 4) % (max_id - min_id + 1) + min_id

/-! ## Raw flight-leg records (`flight_transformer.py` input) -/

/-- One crew-roster entry of a raw flight leg. -/
structure CrewMember where
  crewPosition : Option String
  firstName : Option String
  lastName : Option String
deriving DecidableEq

/-- One raw flight-leg record from the API.  Timestamp fields hold the
result of the source's safe parse (`none` = absent or unparseable).  The
`id` field is required: the source calls `generate_stable_id(fms_id)` on it
unconditionally and would raise on a record without it.  `createDate` is the
parse result of `parse_flight_datetime(createDate)`. -/
structure Flight where
  id : String
  tripID : Option String
  tripNumber : Option String
  tailNumber : Option String
  departureICAO : Option String
  arrivalICAO : Option String
  scheduledDepartureDateUTC : Option Nat
  scheduledArrivalDateUTC : Option Nat
  actualDepartureDateUTC : Option Nat
  actualArrivalDateUTC : Option Nat
  outOfBlocksUTC : Option Nat
  inBlocksUTC : Option Nat
  passengerCount : Option Int
  isEmpty : Option Bool
  tripRegulatoryType : Option String
  status : Option String
  crew : Option (List CrewMember)
  createDate : Option Nat
  departureFBOHandlerID : Option Int
  arrivalFBOHandlerID : Option Int
deriving DecidableEq

/-- Python truthiness of an optional string (`None` and `""` are falsy). -/
def truthyStr : Option String → Bool
  | none => false
  | some s => s != ""

/-- Python truthiness of an optional integer id (`None` and `0` are falsy). -/
def truthyId : Option Nat → Bool
  | none => false
  | some n => n != 0

/-- `data_utils.clean_string`: strip, and collapse empty results to `None`. -/
def clean_string : Option String → Option String
  | none => none
  | some v => if v.trim = "" then none else some v.trim

/-- `data_utils.safe_int` applied to an optional string field. -/
def safe_int (v : Option String) : Option Int := v.bind String.toInt?

/-- The three bulk lookup maps (`lookups['crew' | 'airports' | 'aircraft']`);
a missing key of the Python dict is the constant-`none` map. -/
structure Lookups where
  crew : String → Option Nat
  airports : String → Option Nat
  aircraft : String → Option Nat

/-- One entry of `shared_data['crew_members']`. -/
structure CrewMemberInfo where
  name : String
  position : String
  position_id : Option Nat
deriving DecidableEq

/-- `extract_shared_flight_data`'s result dict (the redundant `crew_list`
entry is recoverable as `raw_flight.crew` and is not duplicated here). -/
structure SharedData where
  fms_id : String
  trip_id : Option String
  stable_id : Nat
  tail_number : Option String
  scheduled_departure : Option Nat
  scheduled_arrival : Option Nat
  actual_departure : Option Nat
  actual_arrival : Option Nat
  out_blocks : Option Nat
  in_blocks : Option Nat
  create_time : Nat
  pic_name : Option String
  sic_name : Option String
  crew_members : List CrewMemberInfo
  raw_flight : Flight
deriving DecidableEq

/-- `FlightTransformer.extract_shared_flight_data`.  `now` is the wall-clock
`datetime.utcnow()` used when `createDate` is absent or unparseable.  The
crew fold mirrors the source loop: the last `pic`/`sic` roster entry wins. -/
def extract_shared_flight_data (now : Nat) (flight : Flight) : SharedData :=
  let crew_list := flight.crew.getD []
  let folded := crew_list.foldl (fun acc cm =>
    let crew_position := (cm.crewPosition.getD "").toLower
    let crew_name := ((cm.firstName.getD "") ++ " " ++ (cm.lastName.getD "")).trim
    ((if crew_position = "pic" then some crew_name else acc.1),
     (if crew_position = "sic" then some crew_name else acc.2.1),
     acc.2.2 ++ [{ name := crew_name, position := crew_position,
                   position_id :=
                     if crew_position = "pic" then some 1
                     else if crew_position = "sic" then some 2 else none }]))
    ((none : Option String), (none : Option String), ([] : List CrewMemberInfo))
  { fms_id := flight.id
    trip_id := flight.tripID
    stable_id := generateStableId6 flight.id
    tail_number := flight.tailNumber
    scheduled_departure := flight.scheduledDepartureDateUTC
    scheduled_arrival := flight.scheduledArrivalDateUTC
    actual_departure := flight.actualDepartureDateUTC
    actual_arrival := flight.actualArrivalDateUTC
    out_blocks := flight.outOfBlocksUTC
    in_blocks := flight.inBlocksUTC
    create_time := flight.createDate.getD now
    pic_name := folded.1
    sic_name := folded.2.1
    crew_members := folded.2.2
    raw_flight := flight }

/-- `calculate_oooi_times`'s result dict; the two durations are in minutes
(Python floats, modelled as `ℚ`). -/
structure OooiTimes where
  outtime : Option Nat
  offtime : Option Nat
  ontime : Option Nat
  intime : Option Nat
  flight_time : Option ℚ
  block_time : Option ℚ
deriving DecidableEq

/-- `FlightTransformer.calculate_oooi_times`: OOOI times with 6-minute
(360-second) padding and the derived durations in minutes. -/
def calculate_oooi_times (shared_data : SharedData) : OooiTimes :=
  let outtime : Option Nat := shared_data.scheduled_departure
  let intime : Option Nat := shared_data.scheduled_arrival
  let offtime : Option Nat := outtime.map (· + 360)
  let ontime : Option Nat := intime.map (· - 360)
  let flight_time : Option ℚ :=
    match ontime, offtime with
    | some onT, some offT => some (((onT - offT : Int) : ℚ) / 60)
    | _, _ => none
  let block_time : Option ℚ :=
    match intime, outtime with
    | some inT, some outT => some (((inT - outT : Int) : ℚ) / 60)
    | _, _ => none
  { outtime := outtime, offtime := offtime, ontime := ontime, intime := intime,
    flight_time := flight_time, block_time := block_time }

/-- One row of the `movement_temp` staging table (also the shape upserted
into `movement`).  The transformer's dict writes every field except
`isaclocked`/`iscrewlocked`, which stay at the table's NULL default; the
source dict lists `tripnumber` twice and the later `safe_int` entry wins. -/
structure MovementRow where
  id : Nat
  demandid : Option Nat
  fromairportid : Option Nat
  toairportid : Option Nat
  fromfboid : Option Int
  tofboid : Option Int
  aircraftid : Option Nat
  outtime : Option Nat
  offtime : Option Nat
  ontime : Option Nat
  intime : Option Nat
  actualouttime : Option Nat
  actualofftime : Option Nat
  actualontime : Option Nat
  actualintime : Option Nat
  flighttime : Option ℚ
  blocktime : Option ℚ
  status : Option String
  picid : Option Nat
  sicid : Option Nat
  fmsversion : Option Nat
  fmsid : String
  createtime : Nat
  fromairport : Option String
  toairport : Option String
  tailnumber : Option String
  pic : Option String
  sic : Option String
  numberpassenger : Int
  tripnumber : Option Int
  isposition : Nat
  isowner : Nat
  tripid : Option String
  isaclocked : Option Nat
  iscrewlocked : Option Nat
deriving DecidableEq

/-- `FlightTransformer.build_movement_record`. -/
def build_movement_record (shared_data : SharedData) (lookups : Lookups) : MovementRow :=
  let flight := shared_data.raw_flight
  let departure_icao := flight.departureICAO
  let arrival_icao := flight.arrivalICAO
  let from_airport_id :=
    if truthyStr departure_icao then lookups.airports ((departure_icao.getD "").toUpper) else none
  let to_airport_id :=
    if truthyStr arrival_icao then lookups.airports ((arrival_icao.getD "").toUpper) else none
  let aircraft_id :=
    if truthyStr shared_data.tail_number then lookups.aircraft (shared_data.tail_number.getD "")
    else none
  let pic_id :=
    if truthyStr shared_data.pic_name then lookups.crew (shared_data.pic_name.getD "") else none
  let sic_id :=
    if truthyStr shared_data.sic_name then lookups.crew (shared_data.sic_name.getD "") else none
  let oooi_times := calculate_oooi_times shared_data
  let i := shared_data.stable_id
  let passengerCount := flight.passengerCount.getD 0
  let isEmpty := flight.isEmpty
  { id := i
    demandid := if isEmpty = some false then some i else none
    fromairportid := from_airport_id
    toairportid := to_airport_id
    fromfboid := flight.departureFBOHandlerID
    tofboid := flight.arrivalFBOHandlerID
    aircraftid := aircraft_id
    outtime := oooi_times.outtime
    offtime := oooi_times.offtime
    ontime := oooi_times.ontime
    intime := oooi_times.intime
    actualouttime := shared_data.out_blocks
    actualofftime := shared_data.actual_departure
    actualontime := shared_data.actual_arrival
    actualintime := shared_data.in_blocks
    flighttime := oooi_times.flight_time
    blocktime := oooi_times.block_time
    status := clean_string flight.status
    picid := pic_id
    sicid := sic_id
    fmsversion := none
    fmsid := shared_data.fms_id
    createtime := shared_data.create_time
    fromairport := departure_icao
    toairport := arrival_icao
    tailnumber := clean_string shared_data.tail_number
    pic := shared_data.pic_name
    sic := shared_data.sic_name
    numberpassenger := passengerCount
    tripnumber := safe_int flight.tripNumber
    isposition := if isEmpty = some true then 1 else 0
    isowner := if flight.tripRegulatoryType.getD "" = "Part 91" then 1 else 0
    tripid := shared_data.trip_id
    isaclocked := none
    iscrewlocked := none }

/-- One row of the `crewassignment_temp` staging table.  The transformer
writes `aircraftid`/`crewid`/`positionid` as integers; the columns are kept
nullable to model the SQL table the crew-shift transfer later reads. -/
structure CrewTempRow where
  aircraftid : Option Nat
  crewid : Option Nat
  positionid : Option Nat
  starttime : Option Nat
  endtime : Option Nat
  actualstarttime : Option Nat
  actualendtime : Option Nat
  fmsversion : Option Nat
  fmsid : String
  createtime : Nat
  tailnumber : Option String
  crewname : String
  pic : Option String
  sic : Option String
deriving DecidableEq

/-- `FlightTransformer.build_crew_assignment_records`: one record per roster
entry with a recognized position (`pic`/`sic`) and a truthy resolved crew
id; nothing at all when the roster is empty or the aircraft id is falsy. -/
def build_crew_assignment_records (shared_data : SharedData) (aircraft_id : Option Nat)
    (crew_lookup : String → Option Nat) : List CrewTempRow :=
  if shared_data.crew_members = [] || !(truthyId aircraft_id) then []
  else
    shared_data.crew_members.filterMap (fun cm =>
      match cm.position_id with
      | none => none
      | some pid =>
        let crew_id := crew_lookup cm.name
        if truthyId crew_id then
          some { aircraftid := aircraft_id
                 crewid := crew_id
                 positionid := some pid
                 starttime := shared_data.scheduled_departure
                 endtime := shared_data.scheduled_arrival
                 actualstarttime := shared_data.actual_departure
                 actualendtime := shared_data.actual_arrival
                 fmsversion := none
                 fmsid := shared_data.fms_id
                 createtime := shared_data.create_time
                 tailnumber := shared_data.tail_number
                 crewname := cm.name
                 pic := shared_data.pic_name
                 sic := shared_data.sic_name }
        else none)

/-- One entry of the transformer's skipped-flights diagnostic list. -/
structure SkippedFlight where
  fms_id : String
  trip_number : Option String
  tail_number : Option String
  route : String
  scheduled_departure : Option Nat
  status : Option String
deriving DecidableEq

/-- The skipped-flights entry built for a leg whose aircraft is unmatched. -/
def mkSkippedFlight (shared_data : SharedData) : SkippedFlight :=
  let flight := shared_data.raw_flight
  { fms_id := shared_data.fms_id
    trip_number := flight.tripNumber
    tail_number := shared_data.tail_number
    route :=
      if truthyStr flight.departureICAO && truthyStr flight.arrivalICAO then
        (flight.departureICAO.getD "") ++ "->" ++ (flight.arrivalICAO.getD "")
      else "Unknown route"
    scheduled_departure := flight.scheduledDepartureDateUTC
    status := flight.status }

/-- `transform_flight_data`'s output: the two record lists the source
returns plus the skipped-flights list it accumulates for the log summary. -/
structure TransformOutput where
  movements : List MovementRow
  crew_assignments : List CrewTempRow
  skipped_flights : List SkippedFlight
deriving DecidableEq

/-- The contribution of a single leg to `transform_flight_data`'s output:
either one movement plus its crew assignments, or (when the tail number is
truthy and the aircraft id resolves falsy) nothing but a skipped entry. -/
def flightContrib (now : Nat) (lookups : Lookups) (flight : Flight) : TransformOutput :=
  let shared_data := extract_shared_flight_data now flight
  let aircraft_id :=
    if truthyStr shared_data.tail_number then lookups.aircraft (shared_data.tail_number.getD "")
    else none
  if truthyStr shared_data.tail_number && !(truthyId aircraft_id) then
    { movements := [], crew_assignments := [], skipped_flights := [mkSkippedFlight shared_data] }
  else
    { movements := [build_movement_record shared_data lookups]
      crew_assignments := build_crew_assignment_records shared_data aircraft_id lookups.crew
      skipped_flights := [] }

/-- One iteration of `transform_flight_data`'s loop: append the leg's
contribution to the accumulated output. -/
def transformStep (now : Nat) (lookups : Lookups) (acc : TransformOutput) (flight : Flight) :
    TransformOutput :=
  let c := flightContrib now lookups flight
  { movements := acc.movements ++ c.movements
    crew_assignments := acc.crew_assignments ++ c.crew_assignments
    skipped_flights := acc.skipped_flights ++ c.skipped_flights }

/-- `FlightTransformer.transform_flight_data`: the per-leg loop, appending
each leg's contribution (the unmatched-crew/airport sets it also tracks are
log-only and not modelled). -/
def transform_flight_data (now : Nat) (flight_data : List Flight) (lookups : Lookups) :
    TransformOutput :=
  flight_data.foldl (transformStep now lookups)
    { movements := [], crew_assignments := [], skipped_flights := [] }

/-! ## Loader: keyed-table model (`flight_loader.py`) -/

/-- Midnight of a day number: `parse_iso_datetime` on a date-only string
yields 00:00:00 of that day. -/
def midnight (d : Nat) : Nat := d * 86400

/-- The incremental delete's predicate: the date column lies in the
datetime range [start 00:00:00, end 00:00:00] (SQL NULL compares false). -/
def inClearScope (start_day end_day : Nat) : Option Nat → Bool
  | none => false
  | some t => decide (midnight start_day ≤ t) && decide (t ≤ midnight end_day)

/-- `FlightLoader._clear_table`: truncate the whole table on an initial
load; on an incremental load delete exactly the rows whose date column
falls in `inClearScope`. -/
def clear_table {α : Type} (is_initial : Bool) (start_day end_day : Nat)
    (date_column : α → Option Nat) (rows : List α) : List α :=
  if is_initial then []
  else rows.filter (fun r => !(inClearScope start_day end_day (date_column r)))

/-- `INSERT … ON DUPLICATE KEY UPDATE` of one row into a keyed table: if the
key is present, every non-key column is overwritten (the source's update
list covers all of them, so the row is replaced); otherwise the row is
appended. -/
def upsertRow {α : Type} (key : α → Nat) (t : List α) (r : α) : List α :=
  if t.any (fun x => key x == key r) then t.map (fun x => if key x == key r then r else x)
  else t ++ [r]

/-- Upsert a list of staged rows, in order, into a keyed table. -/
def upsertAll {α : Type} (key : α → Nat) (rows : List α) (base : List α) : List α :=
  rows.foldl (upsertRow key) base

/-- The row of a keyed table holding key `i`, if any. -/
def findRow {α : Type} (key : α → Nat) (t : List α) (i : Nat) : Option α :=
  t.find? (fun x => key x == i)

/-- Key uniqueness of a table (the primary-key constraint). -/
def nodupKeys {α : Type} (key : α → Nat) (t : List α) : Prop := (t.map key).Nodup

/-- One row of the `demand` target table (the column list of
`load_qualifying_flights_to_demand` in `flight_loader.py`). -/
structure DemandRow where
  id : Nat
  legnumber : Nat
  tripnumber : Option Int
  requestaircrafttypeid : Option Nat
  requestaircraftcategoryid : Option Nat
  fromairportid : Option Nat
  toairportid : Option Nat
  fromfboid : Option Int
  tofboid : Option Int
  aircraftid : Option Nat
  outtime : Option Nat
  intime : Option Nat
  primarypaxid : Option Nat
  numberpassenger : Int
  flighttime : Option ℚ
  blocktime : Option ℚ
  status : Option String
  flexbefore : Nat
  flexafter : Nat
  isowner : Nat
  iswholesale : Nat
  isofffleet : Nat
  fmsversion : Option Nat
  fmsid : Option String
  createtime : Nat
deriving DecidableEq

/-- The demand projection of one staged movement row: the SELECT list of
`load_qualifying_flights_to_demand` (`flight_loader.py`); note that the
demand row's `id` is the movement's `id` and its `fmsid` is the `tripid`. -/
def movementToDemand (r : MovementRow) : DemandRow :=
  { id := r.id
    legnumber := 1
    tripnumber := r.tripnumber
    requestaircrafttypeid := none
    requestaircraftcategoryid := none
    fromairportid := r.fromairportid
    toairportid := r.toairportid
    fromfboid := r.fromfboid
    tofboid := r.tofboid
    aircraftid := r.aircraftid
    outtime := r.outtime
    intime := r.intime
    primarypaxid := none
    numberpassenger := r.numberpassenger
    flighttime := r.flighttime
    blocktime := r.blocktime
    status := r.status
    flexbefore := 0
    flexafter := 0
    isowner := r.isowner
    iswholesale := 0
    isofffleet := 0
    fmsversion := r.fmsversion
    fmsid := r.tripid
    createtime := r.createtime }

/-! ## Crew-shift aggregation (`crew_assignment_loader.transfer_temp_to_target`) -/

/-- Calendar day of a timestamp (SQL `DATE(...)`, as a day number). -/
def dayOf (t : Nat) : Nat := t / 86400

/-- Hour of day of a timestamp (SQL `HOUR(...)`). -/
def hourOfDay (t : Nat) : Nat := t % 86400 / 3600

/-- The duty-date CASE of the transfer query, cutoff hour 9: the calendar
date of the start time when its hour-of-day is ≥ 9, else the previous
calendar day. -/
def dutyDateOf (t : Nat) : Nat := if 9 ≤ hourOfDay t then dayOf t else dayOf t - 1

/-- First-occurrence de-duplication (SQL `DISTINCT`), with an accumulator
of already-seen values so the recursion is structural. -/
def distinctFrom {α : Type} [DecidableEq α] : List α → List α → List α
  | _, [] => []
  | seen, x :: xs =>
    if x ∈ seen then distinctFrom seen xs else x :: distinctFrom (x :: seen) xs

/-- First-occurrence de-duplication of a list. -/
def distinctL {α : Type} [DecidableEq α] (l : List α) : List α := distinctFrom [] l

/-- Byte-wise lexicographic comparison of char lists (the collation of the
`ORDER BY` inside `GROUP_CONCAT`). -/
def charListLe : List Char → List Char → Bool
  | [], _ => true
  | _ :: _, [] => false
  | a :: as, b :: bs =>
    if a.toNat < b.toNat then true
    else if b.toNat < a.toNat then false
    else charListLe as bs

/-- Lexicographic string comparison. -/
def strLe (a b : String) : Bool := charListLe a.data b.data

/-- Insert a string into a sorted list of strings. -/
def insertSortedStr (x : String) : List String → List String
  | [] => [x]
  | y :: ys => if strLe x y then x :: y :: ys else y :: insertSortedStr x ys

/-- Insertion sort on strings (SQL `ORDER BY` inside `GROUP_CONCAT`). -/
def sortStrs : List String → List String
  | [] => []
  | x :: xs => insertSortedStr x (sortStrs xs)

/-- One aggregated shift row of the `crewassignment` target table. -/
structure ShiftRow where
  crewid : Nat
  dutydate : Nat
  aircraftid : Option Nat
  positionid : Option Nat
  starttime : Nat
  endtime : Nat
  actualstarttime : Option Nat
  actualendtime : Option Nat
  fmsversion : Option Nat
  fmsid : String
  createtime : Nat
  tailnumber : Option String
  crewname : String
deriving DecidableEq

/-- The grouping key of the transfer query's subquery row:
`(crewid, aircraftid, dutydate, positionid)`; `none` when the row fails the
subquery's WHERE clause (`crewid`, `starttime`, `endtime` all non-null). -/
def shiftKey (r : CrewTempRow) : Option (Nat × Option Nat × Nat × Option Nat) :=
  match r.crewid, r.starttime, r.endtime with
  | some c, some s, some _ => some (c, r.aircraftid, dutyDateOf s, r.positionid)
  | _, _, _ => none

/-- The distinct grouping keys of a staging table's eligible rows. -/
def shiftGroups (temp : List CrewTempRow) : List (Nat × Option Nat × Nat × Option Nat) :=
  distinctL (temp.filterMap shiftKey)

/-- The eligible staging rows belonging to one grouping key. -/
def shiftGroupRows (temp : List CrewTempRow) (k : Nat × Option Nat × Nat × Option Nat) :
    List CrewTempRow :=
  temp.filter (fun r => shiftKey r = some k)

/-- The aggregated shift of one group: `MIN(starttime − 60 min)`,
`MAX(endtime + 30 min)`, `MIN`/`MAX` of the actual times (SQL aggregates
skip NULLs), `GROUP_CONCAT(DISTINCT fmsid ORDER BY fmsid)`,
`GROUP_CONCAT(DISTINCT tailnumber ORDER BY tailnumber)`, `MAX(crewname)`,
and `NOW()` as the create time. -/
def mkShift (now : Nat) (k : Nat × Option Nat × Nat × Option Nat) (g : List CrewTempRow) :
    ShiftRow :=
  { crewid := k.1
    dutydate := k.2.2.1
    aircraftid := k.2.1
    positionid := k.2.2.2
    starttime := ((g.filterMap (fun r => r.starttime.map (· - 3600))).min?).getD 0
    endtime := ((g.filterMap (fun r => r.endtime.map (· + 1800))).max?).getD 0
    actualstarttime := (g.filterMap (fun r => r.actualstarttime)).min?
    actualendtime := (g.filterMap (fun r => r.actualendtime)).max?
    fmsversion := (g.filterMap (fun r => r.fmsversion)).max?
    fmsid := String.intercalate "," (sortStrs (distinctL (g.map (fun r => r.fmsid))))
    createtime := now
    tailnumber :=
      match sortStrs (distinctL (g.filterMap (fun r => r.tailnumber))) with
      | [] => none
      | ts => some (String.intercalate "," ts)
    crewname := ((g.map (fun r => r.crewname)).max?).getD "" }

/-- All aggregated shift rows produced from a crew-assignment staging
table, one per distinct grouping key. -/
def crewShiftRows (now : Nat) (temp : List CrewTempRow) : List ShiftRow :=
  (shiftGroups temp).map (fun k => mkShift now k (shiftGroupRows temp k))

/-! ## Database state and the staged-load steps -/

/-- The tables touched by the flight-leg pipeline. -/
structure DBState where
  movementTemp : List MovementRow
  movement : List MovementRow
  demand : List DemandRow
  crewTemp : List CrewTempRow
  crewassignment : List ShiftRow
deriving DecidableEq

/-- `FlightLoader.load_to_movement_temp`: with no records the staging table
is left untouched (the early return precedes the truncate); otherwise the
staging table is truncated and rebuilt.  Returns the loaded count. -/
def load_to_movement_temp (movement_records : List MovementRow) (st : DBState) : Nat × DBState :=
  if movement_records = [] then (0, st)
  else (movement_records.length, { st with movementTemp := movement_records })

/-- `CrewAssignmentLoader.reset_and_load_crew_assignments_temp` (wrapped by
`FlightLoader.load_crew_assignments`): same early-return shape for the
crew-assignment staging table. -/
def load_crew_assignments (crew_assignment_records : List CrewTempRow) (st : DBState) :
    Nat × DBState :=
  if crew_assignment_records = [] then (0, st)
  else (crew_assignment_records.length, { st with crewTemp := crew_assignment_records })

/-- `FlightLoader.port_movement_temp_to_movement`: clear the target scope,
then upsert every staged row.  The SQL statement's `rowcount` (1 per
insert, 2 per changed update) is modelled as the number of staged rows
processed; the claims only rely on its value when it is zero. -/
def port_movement_temp_to_movement (is_initial : Bool) (start_day end_day : Nat)
    (st : DBState) : Nat × DBState :=
  let cleared := clear_table is_initial start_day end_day (fun r => r.outtime) st.movement
  (st.movementTemp.length,
   { st with movement := upsertAll (fun r : MovementRow => r.id) st.movementTemp cleared })

/-- `FlightLoader.load_qualifying_flights_to_demand`: clear the demand
scope, then upsert the staged rows with `isposition = 0` — the only filter
of the SELECT. -/
def load_qualifying_flights_to_demand (is_initial : Bool) (start_day end_day : Nat)
    (st : DBState) : Nat × DBState :=
  let qualifying := (st.movementTemp.filter (fun r => r.isposition = 0)).map movementToDemand
  let cleared := clear_table is_initial start_day end_day (fun r : DemandRow => r.outtime) st.demand
  (qualifying.length, { st with demand := upsertAll (fun r : DemandRow => r.id) qualifying cleared })

/-! ## Demand aircraft-request enrichment -/

/-- The `flightLegDemandRequest` sub-record of a trip-detail leg. -/
structure FlightLegDemandRequest where
  aircraftModelID : Option String
  aircraftCategoryID : Option String

/-- The `aircraft` sub-record of a trip-detail leg. -/
structure TripLegAircraft where
  aircraftType : Option String

/-- One leg of the trip-detail API resource. -/
structure TripLeg where
  id : Option String
  flightLegDemandRequest : Option FlightLegDemandRequest
  aircraft : Option TripLegAircraft

/-- `FlightLoader._build_aircraft_lookups`' three reference maps. -/
structure AircraftLookups where
  type_by_fmsid : String → Option Nat
  category_by_fmsid : String → Option Nat
  type_by_name : String → Option (Nat × Option Nat)

/-- `FlightLoader._extract_aircraft_info_from_leg` (without the
`used_fallback` flag): primary lookup through `flightLegDemandRequest`,
falling back to the `aircraft.aircraftType` name when both primary results
are falsy. -/
def extract_aircraft_info_from_leg (lookups : AircraftLookups) (leg : TripLeg) :
    Option Nat × Option Nat :=
  let primary :=
    match leg.flightLegDemandRequest with
    | some dr => (dr.aircraftModelID.bind lookups.type_by_fmsid,
                  dr.aircraftCategoryID.bind lookups.category_by_fmsid)
    | none => (none, none)
  if !(truthyId primary.1) && !(truthyId primary.2) then
    match leg.aircraft with
    | some ac =>
      match ac.aircraftType with
      | some nm =>
        match lookups.type_by_name nm with
        | some info => (some info.1, info.2)
        | none => primary
      | none => primary
    | none => primary
  else primary

/-- One pending `UPDATE demand SET requestaircrafttypeid, …` row. -/
structure DemandUpdate where
  demandid : Nat
  type_id : Option Nat
  category_id : Option Nat
deriving DecidableEq

/-- The trip legs keyed by id (`legs_by_id` dict comprehension: a later leg
with the same id overwrites an earlier one). -/
def lookupLegById (legs : List TripLeg) (fmsid : String) : Option TripLeg :=
  legs.reverse.find? (fun leg => leg.id = some fmsid)

/-- `FlightLoader._process_trip_legs` for one trip: `legs` carries the
`(demandid, fmsid)` pairs of the staged records of this trip. -/
def process_trip_legs (lookups : AircraftLookups) (trip_data : Option (List TripLeg))
    (legs : List (Nat × String)) : List DemandUpdate :=
  match trip_data with
  | none => []
  | some flight_legs =>
    if flight_legs.isEmpty then []
    else
      legs.filterMap (fun li =>
        match lookupLegById flight_legs li.2 with
        | none => none
        | some matching =>
          let info := extract_aircraft_info_from_leg lookups matching
          if truthyId info.1 || truthyId info.2 then
            some { demandid := li.1, type_id := info.1, category_id := info.2 }
          else none)

/-- Apply one `UPDATE demand … WHERE id = :demandid` to one row. -/
def setDemandRequest (u : DemandUpdate) (d : DemandRow) : DemandRow :=
  if d.id = u.demandid then
    { d with requestaircrafttypeid := u.type_id, requestaircraftcategoryid := u.category_id }
  else d

/-- Apply the collected updates to the demand table, in order. -/
def applyDemandUpdates (updates : List DemandUpdate) (demand : List DemandRow) :
    List DemandRow :=
  updates.foldl (fun dem u => dem.map (setDemandRequest u)) demand

/-- The `SELECT DISTINCT demandid, fmsid, tripid FROM movement_temp WHERE
demandid IS NOT NULL AND tripid IS NOT NULL` of
`populate_demand_aircraft_requests`. -/
def demandRecordTriples (temp : List MovementRow) : List (Nat × String × String) :=
  distinctL (temp.filterMap (fun r =>
    match r.demandid, r.tripid with
    | some d, some t => some (d, r.fmsid, t)
    | _, _ => none))

/-- The updates collected by `populate_demand_aircraft_requests` from a
staging table's triples: one trip-detail fetch per distinct trip id, each
trip contributing its legs' updates in record order. -/
def demandUpdatesOf (lookups : AircraftLookups) (tripFetch : String → Option (List TripLeg))
    (temp : List MovementRow) : List DemandUpdate :=
  let records := demandRecordTriples temp
  let tripIds := distinctL (records.map (fun rec => rec.2.2))
  tripIds.foldl (fun acc tripid =>
    let legs := (records.filter (fun rec => rec.2.2 = tripid)).map (fun rec => (rec.1, rec.2.1))
    acc ++ process_trip_legs lookups (tripFetch tripid) legs) []

/-- `FlightLoader.populate_demand_aircraft_requests`: group the staged
triples by trip, fetch each trip through the API client (`tripFetch`),
collect the updates and apply them to the demand table. -/
def populate_demand_aircraft_requests (tripFetch : String → Option (List TripLeg))
    (lookups : AircraftLookups) (st : DBState) : Nat × DBState :=
  if demandRecordTriples st.movementTemp = [] then (0, st)
  else
    let all_updates := demandUpdatesOf lookups tripFetch st.movementTemp
    (all_updates.length, { st with demand := applyDemandUpdates all_updates st.demand })

/-- `CrewAssignmentLoader.transfer_temp_to_target`: delete target shifts
whose duty date lies in the observed date span, insert the aggregated
shifts, and truncate the staging table. -/
def transfer_temp_to_target (now : Nat) (min_date max_date : Nat) (st : DBState) :
    Nat × DBState :=
  let kept := st.crewassignment.filter (fun s =>
    !(decide (min_date ≤ s.dutydate) && decide (s.dutydate ≤ max_date)))
  let shifts := crewShiftRows now st.crewTemp
  (shifts.length, { st with crewassignment := kept ++ shifts, crewTemp := [] })

/-- `FlightLoader.get_flight_date_range`: min/max calendar day of the
parseable scheduled departures. -/
def get_flight_date_range (flight_data : List Flight) : Option Nat × Option Nat :=
  let dates := flight_data.filterMap (fun f => f.scheduledDepartureDateUTC.map dayOf)
  match dates.min?, dates.max? with
  | some mn, some mx => (some mn, some mx)
  | _, _ => (none, none)

/-! ## Bulk lookups and the pipeline entry point -/

/-- The unique key sets collected for the bulk lookups. -/
structure LookupSets where
  crew_names : List String
  airport_codes : List String
  tail_numbers : List String
deriving DecidableEq

/-- Add a key to a Python-set-modelled list. -/
def addToSet (s : List String) (x : String) : List String := if x ∈ s then s else s ++ [x]

/-- `FlightTransformer.collect_lookup_sets` over a (non-`None`) record
list: final `pic`/`sic` names, upper-cased ICAO codes and tail numbers,
each added when truthy. -/
def collect_lookup_sets (now : Nat) (flight_data : List Flight) : LookupSets :=
  flight_data.foldl (fun acc flight =>
    let shared_data := extract_shared_flight_data now flight
    let c1 := if truthyStr shared_data.pic_name then
        addToSet acc.crew_names (shared_data.pic_name.getD "") else acc.crew_names
    let c2 := if truthyStr shared_data.sic_name then
        addToSet c1 (shared_data.sic_name.getD "") else c1
    let a1 := if truthyStr flight.departureICAO then
        addToSet acc.airport_codes ((flight.departureICAO.getD "").toUpper) else acc.airport_codes
    let a2 := if truthyStr flight.arrivalICAO then
        addToSet a1 ((flight.arrivalICAO.getD "").toUpper) else a1
    let t1 := if truthyStr shared_data.tail_number then
        addToSet acc.tail_numbers (shared_data.tail_number.getD "") else acc.tail_numbers
    { crew_names := c2, airport_codes := a2, tail_numbers := t1 })
  { crew_names := [], airport_codes := [], tail_numbers := [] }

/-- The three reference tables the `LookupService` queries. -/
structure DbRefMaps where
  crew : String → Option Nat
  aircraft : String → Option Nat
  airport : String → Option Nat

/-- A bulk `WHERE key IN (…)` lookup: the reference map restricted to the
requested key set (an empty set yields the empty map without querying, and
`get_bulk_lookups` likewise omits the dict entry for an empty set — both
are the constant-`none` map). -/
def restrictMap (m : String → Option Nat) (keys : List String) : String → Option Nat :=
  fun k => if k ∈ keys then m k else none

/-- `LookupService.get_bulk_lookups` over the collected key sets. -/
def get_bulk_lookups (db : DbRefMaps) (sets : LookupSets) : Lookups :=
  { crew := restrictMap db.crew sets.crew_names
    aircraft := restrictMap db.aircraft sets.tail_numbers
    airports := restrictMap db.airport sets.airport_codes }

/-- The result dict of `process_flight_schedules`. -/
structure LoadCounts where
  movement_temp_loaded : Nat
  crew_assignments_loaded : Nat
  movement_loaded : Nat
  demand_loaded : Nat
  demand_aircraft_requests_populated : Nat
  crew_shifts_loaded : Nat
deriving DecidableEq

/-- The body of `FlightLoader.process_flight_schedules` for a (non-`None`)
record list: collect lookups, transform once, stage both record lists (the
two staging loads run on independent tables; their thread-pool parallelism
is modelled sequentially), port to `movement`, load `demand`, enrich
demand aircraft requests, and transfer crew shifts when a date range is
observable.  `now` is the run's wall clock (`datetime.utcnow()`/`NOW()`). -/
def run_flight_schedules (db : DbRefMaps) (acLookups : AircraftLookups)
    (tripFetch : String → Option (List TripLeg)) (now : Nat)
    (flight_data : List Flight) (is_initial : Bool) (start_day end_day : Nat)
    (st : DBState) : LoadCounts × DBState :=
  let lookups := get_bulk_lookups db (collect_lookup_sets now flight_data)
  let transformed := transform_flight_data now flight_data lookups
  let r1 := load_to_movement_temp transformed.movements st
  let r2 := load_crew_assignments transformed.crew_assignments r1.2
  let r3 := port_movement_temp_to_movement is_initial start_day end_day r2.2
  let r4 := load_qualifying_flights_to_demand is_initial start_day end_day r3.2
  let r5 := populate_demand_aircraft_requests tripFetch acLookups r4.2
  let r6 :=
    match get_flight_date_range flight_data with
    | (some mn, some mx) => transfer_temp_to_target now mn mx r5.2
    | _ => (0, r5.2)
  ({ movement_temp_loaded := r1.1
     crew_assignments_loaded := r2.1
     movement_loaded := r3.1
     demand_loaded := r4.1
     demand_aircraft_requests_populated := r5.1
     crew_shifts_loaded := r6.1 }, r6.2)

/-- `FlightLoader.process_flight_schedules`.  A `None` record list raises:
the first step, `collect_lookup_sets`, iterates over `flight_data` and a
`None` argument is not iterable (only `transform_flight_data`, reached
later, guards against `None`). -/
def process_flight_schedules (db : DbRefMaps) (acLookups : AircraftLookups)
    (tripFetch : String → Option (List TripLeg)) (now : Nat)
    (flight_data : Option (List Flight)) (is_initial : Bool) (start_day end_day : Nat)
    (st : DBState) : Except String (LoadCounts × DBState) :=
  match flight_data with
  | none => Except.error "TypeError: argument of type NoneType is not iterable"
  | some fd =>
    Except.ok (run_flight_schedules db acLookups tripFetch now fd is_initial start_day end_day st)

/-! ## Pipeline characterization helpers and concrete fixtures -/

/-- The bulk lookups the pipeline computes for a record list. -/
def pipelineLookups (db : DbRefMaps) (now : Nat) (fd : List Flight) : Lookups :=
  get_bulk_lookups db (collect_lookup_sets now fd)

/-- The movement records the pipeline stages for a record list. -/
def transformedMovements (db : DbRefMaps) (now : Nat) (fd : List Flight) : List MovementRow :=
  (transform_flight_data now fd (pipelineLookups db now fd)).movements

/-- The `movement_temp` contents after the staging step: the transformed
records, or the previous staging contents when there was nothing to load
(the early return skips the truncate). -/
def stagedMovements (db : DbRefMaps) (now : Nat) (fd : List Flight) (st : DBState) :
    List MovementRow :=
  if transformedMovements db now fd = [] then st.movementTemp else transformedMovements db now fd

/-- The demand rows staged from a `movement_temp` state (`isposition = 0`). -/
def qualifyingDemand (temp : List MovementRow) : List DemandRow :=
  (temp.filter (fun r => r.isposition = 0)).map movementToDemand

/-- The per-row effect of applying a whole update list in order. -/
def updFn (updates : List DemandUpdate) (d : DemandRow) : DemandRow :=
  updates.foldl (fun x u => setDemandRequest u x) d

/-- Empty reference maps (no crew/aircraft/airports loaded). -/
def dbRefNone : DbRefMaps :=
  { crew := fun _ => none, aircraft := fun _ => none, airport := fun _ => none }

/-- Empty aircraft type/category lookups. -/
def acLookupsNone : AircraftLookups :=
  { type_by_fmsid := fun _ => none, category_by_fmsid := fun _ => none,
    type_by_name := fun _ => none }

/-- An API client whose trip-detail fetch always returns nothing. -/
def tripFetchNone : String → Option (List TripLeg) := fun _ => none

/-- Empty transformer lookups. -/
def lookupsNone : Lookups :=
  { crew := fun _ => none, airports := fun _ => none, aircraft := fun _ => none }

/-- An empty database state. -/
def emptyDB : DBState :=
  { movementTemp := [], movement := [], demand := [], crewTemp := [], crewassignment := [] }

/-- Fixture: a leg with a non-empty tail number (for the drop-policy
claims), one PIC roster entry and a parseable create date. -/
def flightTailUnmatched : Flight :=
  { id := "leg-1", tripID := some "trip-1", tripNumber := some "100"
    tailNumber := some "N123AB"
    departureICAO := some "KJFK", arrivalICAO := some "KBOS"
    scheduledDepartureDateUTC := some 1750000000, scheduledArrivalDateUTC := some 1750007200
    actualDepartureDateUTC := none, actualArrivalDateUTC := none
    outOfBlocksUTC := none, inBlocksUTC := none
    passengerCount := some 3, isEmpty := some false, tripRegulatoryType := some "Part 135"
    status := some "Scheduled"
    crew := some [{ crewPosition := some "PIC", firstName := some "Ann", lastName := some "Lee" }]
    createDate := some 1749000000
    departureFBOHandlerID := none, arrivalFBOHandlerID := none }

/-- Fixture: a leg with no tail number at all but a resolvable PIC roster
entry (for the keep-movement/drop-crew claim). -/
def flightNoTail : Flight :=
  { flightTailUnmatched with id := "leg-2", tailNumber := none }

/-- Fixture: a leg whose `isEmpty` field is absent. -/
def flightIsEmptyAbsent : Flight :=
  { flightTailUnmatched with id := "leg-3", tailNumber := none, isEmpty := none }

/-- Fixture: a leg with no `createDate` (its `createtime` is stamped with
the run's wall clock) and no tail number. -/
def flightNoCreateDate : Flight :=
  { flightTailUnmatched with
    id := "leg-4"
    tailNumber := none
    createDate := none
    crew := some [] }

/-- Fixture: transformer lookups resolving the fixture crew name. -/
def lookupsCrewAnn : Lookups :=
  { crew := fun n => if n = "Ann Lee" then some 7 else none
    airports := fun _ => none, aircraft := fun _ => none }

/-- Fixture: shared data with both scheduled anchors present (for the OOOI
witness). -/
def sharedW : SharedData :=
  { fms_id := "leg-8", trip_id := none, stable_id := 123456
    tail_number := none
    scheduled_departure := some 1750000000, scheduled_arrival := some 1750003600
    actual_departure := none, actual_arrival := none
    out_blocks := none, in_blocks := none, create_time := 0
    pic_name := none, sic_name := none, crew_members := [], raw_flight := flightNoTail }

/-- Fixture: a movement row whose `outtime` is 13:00 on calendar day 20000
(timestamp `20000 * 86400 + 46800`). -/
def movementRowEndDay : MovementRow :=
  { id := 500001, demandid := some 500001
    fromairportid := none, toairportid := none, fromfboid := none, tofboid := none
    aircraftid := some 3
    outtime := some 1728046800, offtime := some 1728047160
    ontime := some 1728050040, intime := some 1728050400
    actualouttime := none, actualofftime := none, actualontime := none, actualintime := none
    flighttime := some 48, blocktime := some 60
    status := some "Scheduled", picid := none, sicid := none
    fmsversion := none, fmsid := "leg-9", createtime := 1727000000
    fromairport := some "KJFK", toairport := some "KBOS", tailnumber := some "N1"
    pic := none, sic := none
    numberpassenger := 2, tripnumber := some 100
    isposition := 0, isowner := 0, tripid := some "trip-9"
    isaclocked := none, iscrewlocked := none }

/-- Fixture: a position-leg staged movement row (for the demand claims),
`outtime` inside the cleared window of days 19990–20000. -/
def movementRowPosition : MovementRow :=
  { movementRowEndDay with
    id := 500002
    demandid := none
    isposition := 1
    outtime := some 1727136000
    fmsid := "leg-10" }

/-- Fixture: two crew-assignment staging rows of one duty group on day
20000 with leg windows 10:00–12:00 and 13:00–15:00. -/
def crewTempRowA : CrewTempRow :=
  { aircraftid := some 9, crewid := some 5, positionid := some 1
    starttime := some 1728036000, endtime := some 1728043200
    actualstarttime := none, actualendtime := none
    fmsversion := none, fmsid := "leg-20", createtime := 0
    tailnumber := some "N1", crewname := "Ann Lee", pic := some "Ann Lee", sic := none }

/-- Second row of the fixture duty group. -/
def crewTempRowB : CrewTempRow :=
  { crewTempRowA with
    starttime := some 1728046800
    endtime := some 1728054000
    fmsid := "leg-21" }

/-- The fixture crew staging table. -/
def crewTempW : List CrewTempRow := [crewTempRowA, crewTempRowB]

/-- The fixture duty group's key: crew 5, aircraft 9, duty day 20000, PIC. -/
def shiftKeyW : Nat × Option Nat × Nat × Option Nat := (5, some 9, 20000, some 1)

/-- Fixture: a state holding one movement row (for the idempotence
witness). -/
def movementStateW : DBState := { emptyDB with movement := [movementRowEndDay] }

/-- All-zero load counts. -/
def zeroLoadCounts : LoadCounts :=
  { movement_temp_loaded := 0, crew_assignments_loaded := 0, movement_loaded := 0
    demand_loaded := 0, demand_aircraft_requests_populated := 0, crew_shifts_loaded := 0 }

/-- Fixture: a database state whose staging table holds one qualifying and
one position-leg movement row. -/
def demandStateW : DBState :=
  { emptyDB with movementTemp := [movementRowEndDay, movementRowPosition] }

/-! ## Theorems -/

-- Known SHA-256 test vectors, checking the embedding of the hash core.
example : Sha256.sha256 (utf8Encode "abc") =
    [186, 120, 22, 191, 143, 1, 207, 234, 65, 65, 64, 222,
     93, 174, 34, 35, 176, 3, 97, 163, 150, 23, 122, 156,
     180, 16, 255, 97, 242, 0, 21, 173] := by decide

example : Sha256.sha256 [] =
    [227, 176, 196, 66, 152, 252, 28, 20, 154, 251, 244, 200,
     153, 111, 185, 36, 39, 174, 65, 228, 100, 155, 147, 76,
     164, 149, 153, 27, 120, 82, 184, 85] := by decide

/-- C1: `generate_stable_id(external_id, min, max)` equals the first 4 bytes
of SHA-256 of the external id read big-endian, reduced mod `(max − min + 1)`,
plus `min`; it is a pure deterministic function (a Lean `def` of its string
argument alone), and for every `min ≤ max` the result lies in `[min, max]`. -/
theorem generate_stable_id_formula_and_range (s : String) (mn mx : Nat) (h : mn ≤ mx) :
    generate_stable_id s mn mx = stableIdClaimFormula s mn mx ∧
    mn ≤ generate_stable_id s mn mx ∧ generate_stable_id s mn mx ≤ mx := by
  have hlt : bytesToNatBE ((Sha256.sha256 (utf8Encode s)).take 4) % (mx - mn + 1)
      < mx - mn + 1 := Nat.mod_lt _ (Nat.succ_pos _)
  refine ⟨rfl, ?_, ?_⟩ <;> simp only [generate_stable_id] <;> omega

/-- Witness for C1 at a concrete external id and the source's default
6-digit range. -/
theorem generate_stable_id_formula_and_range_witness :
    generate_stable_id "FL-12345" 100000 999999 = stableIdClaimFormula "FL-12345" 100000 999999 ∧
    100000 ≤ generate_stable_id "FL-12345" 100000 999999 ∧
    generate_stable_id "FL-12345" 100000 999999 ≤ 999999 :=
  generate_stable_id_formula_and_range "FL-12345" 100000 999999 (by decide)

/-- C8: the OOOI derivation pads by 6 minutes (`offtime = outtime + 6 min`,
`ontime = intime − 6 min`, with `outtime`/`intime` the scheduled
departure/arrival), derives `flighttime = (ontime − offtime)` minutes and
`blocktime = (intime − outtime)` minutes, and when the scheduled departure
is absent or unparseable both `offtime` and `flighttime` are `none`
whatever the other fields hold. -/
theorem calculate_oooi_times_padding_and_null_propagation (s : SharedData) :
    (calculate_oooi_times s).outtime = s.scheduled_departure ∧
    (calculate_oooi_times s).intime = s.scheduled_arrival ∧
    (calculate_oooi_times s).offtime = s.scheduled_departure.map (· + 360) ∧
    (calculate_oooi_times s).ontime = s.scheduled_arrival.map (· - 360) ∧
    (∀ ot ff, (calculate_oooi_times s).ontime = some ot →
      (calculate_oooi_times s).offtime = some ff →
      (calculate_oooi_times s).flight_time = some (((ot - ff : Int) : ℚ) / 60)) ∧
    (∀ it ou, (calculate_oooi_times s).intime = some it →
      (calculate_oooi_times s).outtime = some ou →
      (calculate_oooi_times s).block_time = some (((it - ou : Int) : ℚ) / 60)) ∧
    (s.scheduled_departure = none →
      (calculate_oooi_times s).offtime = none ∧ (calculate_oooi_times s).flight_time = none) := by
  rcases hsd : s.scheduled_departure with _ | o <;>
    rcases hsa : s.scheduled_arrival with _ | i <;>
      simp [calculate_oooi_times, hsd, hsa]

/-- Witness for C8: anchors 6 minutes apart around a one-hour block yield
48 flight minutes and 60 block minutes. -/
theorem calculate_oooi_times_witness :
    (calculate_oooi_times sharedW).flight_time = some 48 ∧
    (calculate_oooi_times sharedW).block_time = some 60 := by
  have h := calculate_oooi_times_padding_and_null_propagation sharedW
  constructor
  · have hf := h.2.2.2.2.1 1750003240 1750000360 (by decide) (by decide)
    rw [hf]; norm_num
  · have hb := h.2.2.2.2.2.1 1750003600 1750000000 (by decide) (by decide)
    rw [hb]; norm_num

/-- C7 counterexample: for a leg whose `isEmpty` field is absent, the built
movement record has `isposition = 0` but a null `demandid`, so "demandid is
non-null iff isposition = 0" fails on that record. -/
theorem build_movement_record_isEmpty_absent_counterexample :
    ¬ (((build_movement_record (extract_shared_flight_data 0 flightIsEmptyAbsent)
          lookupsNone).demandid ≠ none) ↔
       (build_movement_record (extract_shared_flight_data 0 flightIsEmptyAbsent)
          lookupsNone).isposition = 0) := by
  decide

/-- C7 (amended): the movement record's `demandid` is non-null iff the
leg's `isEmpty` field is literally `false`; when non-null it equals the
record's own stable id; a leg with `isEmpty` absent gets `isposition = 0`
together with a null `demandid` (so `demandid non-null ↔ isposition = 0`
holds only when `isEmpty` is present). -/
theorem build_movement_record_demandid_iff (s : SharedData) (lk : Lookups) :
    ((build_movement_record s lk).demandid ≠ none ↔ s.raw_flight.isEmpty = some false) ∧
    (s.raw_flight.isEmpty = some false →
      (build_movement_record s lk).demandid = some ((build_movement_record s lk).id)) ∧
    (s.raw_flight.isEmpty = none →
      (build_movement_record s lk).isposition = 0 ∧
      (build_movement_record s lk).demandid = none) := by
  rcases he : s.raw_flight.isEmpty with _ | b
  · simp [build_movement_record, he]
  · cases b <;> simp [build_movement_record, he]

/-- Witness for C7's amended statement: a leg with `isEmpty = false` gets
`demandid = some id`; a leg with `isEmpty` absent gets a null `demandid`. -/
theorem build_movement_record_demandid_iff_witness :
    (build_movement_record (extract_shared_flight_data 0 flightTailUnmatched)
        lookupsNone).demandid
      = some ((build_movement_record (extract_shared_flight_data 0 flightTailUnmatched)
          lookupsNone).id) ∧
    (build_movement_record (extract_shared_flight_data 0 flightIsEmptyAbsent)
        lookupsNone).demandid = none :=
  ⟨(build_movement_record_demandid_iff (extract_shared_flight_data 0 flightTailUnmatched)
      lookupsNone).2.1 rfl,
   ((build_movement_record_demandid_iff (extract_shared_flight_data 0 flightIsEmptyAbsent)
      lookupsNone).2.2 rfl).2⟩

/-- The extractor copies the raw tail number through unchanged. -/
lemma extract_tail_number (now : Nat) (f : Flight) :
    (extract_shared_flight_data now f).tail_number = f.tailNumber := rfl

/-- Accumulator lemma for the transform loop: the skipped list of a fold
from any accumulator is the accumulator's list followed by the fold from
the empty accumulator. -/
lemma foldl_transformStep_skipped (now : Nat) (lk : Lookups) :
    ∀ (fd : List Flight) (acc : TransformOutput),
      (fd.foldl (transformStep now lk) acc).skipped_flights
        = acc.skipped_flights
          ++ (fd.foldl (transformStep now lk)
                { movements := [], crew_assignments := [], skipped_flights := [] }).skipped_flights := by
  intro fd
  induction fd with
  | nil => intro acc; simp
  | cons g fd ih =>
    intro acc
    rw [List.foldl_cons, List.foldl_cons, ih,
      ih (transformStep now lk { movements := [], crew_assignments := [], skipped_flights := [] } g)]
    simp [transformStep]

/-- C3: a leg whose tail number is non-empty and absent from the aircraft
lookup map contributes neither a movement record nor any crew-assignment
record — its whole contribution is one skipped-flights entry — and that
entry appears in the transformer's skipped list whenever the leg is in the
input. -/
theorem unmatched_aircraft_drops_leg (now : Nat) (lk : Lookups) (f : Flight)
    (htail : truthyStr f.tailNumber = true)
    (hmiss : lk.aircraft (f.tailNumber.getD "") = none) :
    flightContrib now lk f =
      { movements := [], crew_assignments := []
        skipped_flights := [mkSkippedFlight (extract_shared_flight_data now f)] } ∧
    ∀ fd, f ∈ fd →
      mkSkippedFlight (extract_shared_flight_data now f)
        ∈ (transform_flight_data now fd lk).skipped_flights := by
  have hcontrib : flightContrib now lk f =
      { movements := [], crew_assignments := []
        skipped_flights := [mkSkippedFlight (extract_shared_flight_data now f)] } := by
    simp [flightContrib, extract_tail_number, htail, hmiss, truthyId]
  refine ⟨hcontrib, ?_⟩
  intro fd hf
  induction fd with
  | nil => cases hf
  | cons g fd ih =>
    rw [transform_flight_data, List.foldl_cons, foldl_transformStep_skipped]
    rcases List.mem_cons.mp hf with hfg | hft
    · subst hfg
      apply List.mem_append_left
      simp [transformStep, hcontrib]
    · apply List.mem_append_right
      exact ih hft

/-- Witness for C3: a concrete leg with tail `N123AB` against empty
lookups is reduced to a single skipped entry, visible in the transform of
the singleton batch. -/
theorem unmatched_aircraft_drops_leg_witness :
    flightContrib 0 lookupsNone flightTailUnmatched =
      { movements := [], crew_assignments := []
        skipped_flights := [mkSkippedFlight (extract_shared_flight_data 0 flightTailUnmatched)] } ∧
    mkSkippedFlight (extract_shared_flight_data 0 flightTailUnmatched)
      ∈ (transform_flight_data 0 [flightTailUnmatched] lookupsNone).skipped_flights :=
  have h := unmatched_aircraft_drops_leg 0 lookupsNone flightTailUnmatched (by decide) rfl
  ⟨h.1, h.2 [flightTailUnmatched] (by simp)⟩

/-- C10: a leg whose tail number is absent (or empty) keeps its movement
record — with a null aircraft id — and contributes zero crew-assignment
records, whatever its roster holds. -/
theorem no_tail_keeps_movement_without_crew (now : Nat) (lk : Lookups) (f : Flight)
    (htail : truthyStr f.tailNumber = false) :
    flightContrib now lk f =
      { movements := [build_movement_record (extract_shared_flight_data now f) lk]
        crew_assignments := [], skipped_flights := [] } ∧
    (build_movement_record (extract_shared_flight_data now f) lk).aircraftid = none := by
  constructor
  · simp [flightContrib, extract_tail_number, htail, build_crew_assignment_records, truthyId]
  · simp [build_movement_record, extract_tail_number, htail]

/-- Witness for C10: a concrete leg with no tail number, whose PIC roster
entry resolves in the crew lookup, still yields one movement (null
aircraft id) and no crew assignments. -/
theorem no_tail_keeps_movement_without_crew_witness :
    flightContrib 3 lookupsCrewAnn flightNoTail =
      { movements := [build_movement_record (extract_shared_flight_data 3 flightNoTail)
          lookupsCrewAnn]
        crew_assignments := [], skipped_flights := [] } ∧
    (build_movement_record (extract_shared_flight_data 3 flightNoTail)
        lookupsCrewAnn).aircraftid = none :=
  no_tail_keeps_movement_without_crew 3 lookupsCrewAnn flightNoTail (by decide)

/-- C4 counterexample: on an incremental load, a row whose `outtime` is
13:00 on the end date (calendar day 20000, inside the requested day range
19990–20000) is NOT deleted — the delete compares timestamps against
midnight of the end date, not calendar dates. -/
theorem clear_table_end_date_afternoon_survives :
    dayOf 1728046800 = 20000 ∧
    clear_table false 19990 20000 (fun r : MovementRow => r.outtime) [movementRowEndDay]
      = [movementRowEndDay] := by
  constructor
  · decide
  · decide

/-- C4 (amended): the incremental clear deletes exactly the rows whose
date column holds a timestamp in the closed interval
[start 00:00:00, end 00:00:00] (both date-only bounds parse to midnight);
consequently a row stamped later than midnight on the end date — any time
of day on the end date after 00:00:00 — survives the delete. -/
theorem clear_table_incremental_timestamp_scope {α : Type} (s e : Nat)
    (dc : α → Option Nat) (rows : List α) (r : α) :
    (r ∈ clear_table false s e dc rows ↔
      r ∈ rows ∧ ¬ ∃ t, dc r = some t ∧ midnight s ≤ t ∧ t ≤ midnight e) ∧
    (∀ t, dc r = some t → dayOf t = e → midnight e < t → r ∈ rows →
      r ∈ clear_table false s e dc rows) := by
  have hscope : ∀ (o : Option Nat),
      inClearScope s e o = true ↔ ∃ t, o = some t ∧ midnight s ≤ t ∧ t ≤ midnight e := by
    intro o; cases o <;> simp [inClearScope]
  have hmem : r ∈ clear_table false s e dc rows ↔
      r ∈ rows ∧ ¬ ∃ t, dc r = some t ∧ midnight s ≤ t ∧ t ≤ midnight e := by
    rw [clear_table, if_neg (by simp)]
    rw [List.mem_filter, ← hscope (dc r)]
    cases hb : inClearScope s e (dc r) <;> simp [hb]
  refine ⟨hmem, ?_⟩
  intro t hdc _ hmid hr
  refine hmem.mpr ⟨hr, ?_⟩
  rintro ⟨t', hdc', -, hle⟩
  rw [hdc] at hdc'
  cases hdc'
  omega

/-- Witness for C4's amended statement: the 13:00-on-end-date row is kept
by the incremental clear. -/
theorem clear_table_incremental_timestamp_scope_witness :
    movementRowEndDay ∈ clear_table false 19990 20000 (fun r : MovementRow => r.outtime)
      [movementRowEndDay] :=
  (clear_table_incremental_timestamp_scope 19990 20000 (fun r : MovementRow => r.outtime)
      [movementRowEndDay] movementRowEndDay).2
    1728046800 rfl (by decide) (by decide) (by simp)

/-- Membership in the seen-accumulator form of `DISTINCT`. -/
lemma mem_distinctFrom {α : Type} [DecidableEq α] :
    ∀ (l seen : List α) (x : α), x ∈ distinctFrom seen l ↔ x ∈ l ∧ x ∉ seen := by
  intro l
  induction l with
  | nil => intro seen x; simp [distinctFrom]
  | cons y l ih =>
    intro seen x
    rw [distinctFrom]
    by_cases hy : y ∈ seen
    · rw [if_pos hy, ih]
      simp only [List.mem_cons]
      constructor
      · rintro ⟨hx, hs⟩; exact ⟨Or.inr hx, hs⟩
      · rintro ⟨rfl | hx, hs⟩
        · exact absurd hy hs
        · exact ⟨hx, hs⟩
    · rw [if_neg hy]
      simp only [List.mem_cons, ih, List.mem_cons]
      constructor
      · rintro (rfl | ⟨hl, hn⟩)
        · exact ⟨Or.inl rfl, hy⟩
        · exact ⟨Or.inr hl, fun hs => hn (Or.inr hs)⟩
      · rintro ⟨rfl | hl, hs⟩
        · exact Or.inl rfl
        · by_cases hxy : x = y
          · exact Or.inl hxy
          · exact Or.inr ⟨hl, fun h => by
              rcases h with h | h
              · exact hxy h
              · exact hs h⟩

/-- `DISTINCT` keeps exactly the values of the list. -/
lemma mem_distinctL {α : Type} [DecidableEq α] (l : List α) (x : α) :
    x ∈ distinctL l ↔ x ∈ l := by
  rw [distinctL, mem_distinctFrom]; simp

/-- `min?` commutes with a monotone map. -/
lemma min?_map_mono (f : Nat → Nat) (hf : ∀ a b : Nat, a ≤ b → f a ≤ f b) :
    ∀ l : List Nat, (l.map f).min? = l.min?.map f := by
  intro l
  induction l with
  | nil => rfl
  | cons a l ih =>
    rw [List.map_cons, List.min?_cons, List.min?_cons, ih]
    cases hl : l.min? with
    | none => simp
    | some m =>
      simp only [Option.map_some', Option.elim]
      congr 1
      rcases le_total a m with h | h
      · rw [min_eq_left h, min_eq_left (hf _ _ h)]
      · rw [min_eq_right h, min_eq_right (hf _ _ h)]

/-- `max?` commutes with a monotone map. -/
lemma max?_map_mono (f : Nat → Nat) (hf : ∀ a b : Nat, a ≤ b → f a ≤ f b) :
    ∀ l : List Nat, (l.map f).max? = l.max?.map f := by
  intro l
  induction l with
  | nil => rfl
  | cons a l ih =>
    rw [List.map_cons, List.max?_cons, List.max?_cons, ih]
    cases hl : l.max? with
    | none => simp
    | some m =>
      simp only [Option.map_some', Option.elim]
      congr 1
      rcases le_total a m with h | h
      · rw [max_eq_right h, max_eq_right (hf _ _ h)]
      · rw [max_eq_left h, max_eq_left (hf _ _ h)]

/-- C9: the crew-shift transfer aggregates the eligible staging rows by
`(crew id, aircraft id, duty date, position id)`, where a row's duty date
is the calendar date of its start time when the hour-of-day is ≥ 9 and the
previous calendar day otherwise; each group's shift starts at the earliest
group start minus 60 minutes, ends at the latest group end plus 30
minutes, and carries the group's distinct external ids concatenated
(sorted, comma-separated); each group's shift is among the rows the
transfer inserts. -/
theorem crew_shift_aggregation (now : Nat) (temp : List CrewTempRow)
    (k : Nat × Option Nat × Nat × Option Nat) (hk : k ∈ shiftGroups temp) :
    (∀ r ∈ shiftGroupRows temp k, ∃ s, r.starttime = some s ∧ r.crewid = some k.1 ∧
      r.aircraftid = k.2.1 ∧ r.positionid = k.2.2.2 ∧
      k.2.2.1 = (if 9 ≤ hourOfDay s then dayOf s else dayOf s - 1)) ∧
    (mkShift now k (shiftGroupRows temp k)).starttime
      = (((shiftGroupRows temp k).filterMap (fun r => r.starttime)).min?).getD 0 - 3600 ∧
    (mkShift now k (shiftGroupRows temp k)).endtime
      = (((shiftGroupRows temp k).filterMap (fun r => r.endtime)).max?).getD 0 + 1800 ∧
    (mkShift now k (shiftGroupRows temp k)).fmsid
      = String.intercalate ","
          (sortStrs (distinctL ((shiftGroupRows temp k).map (fun r => r.fmsid)))) ∧
    mkShift now k (shiftGroupRows temp k) ∈ crewShiftRows now temp := by
  have hkey : ∀ r ∈ shiftGroupRows temp k, shiftKey r = some k := by
    intro r hr
    have := (List.mem_filter.mp hr).2
    exact of_decide_eq_true this
  have hshape : ∀ r ∈ shiftGroupRows temp k, ∃ s, r.starttime = some s ∧
      r.crewid = some k.1 ∧ r.aircraftid = k.2.1 ∧ r.positionid = k.2.2.2 ∧
      k.2.2.1 = (if 9 ≤ hourOfDay s then dayOf s else dayOf s - 1) ∧
      ∃ e, r.endtime = some e := by
    intro r hr
    have hsk := hkey r hr
    rcases hc : r.crewid with _ | c <;> rcases hs : r.starttime with _ | s <;>
      rcases he : r.endtime with _ | e <;>
        rw [shiftKey, hc, hs, he] at hsk <;> cases hsk
    exact ⟨s, rfl, rfl, rfl, rfl, rfl, e, rfl⟩
  have hne : ∃ r, r ∈ shiftGroupRows temp k := by
    rw [shiftGroups, mem_distinctL] at hk
    rcases List.mem_filterMap.mp hk with ⟨r, hr, hkr⟩
    exact ⟨r, List.mem_filter.mpr ⟨hr, decide_eq_true hkr⟩⟩
  have hstart : (mkShift now k (shiftGroupRows temp k)).starttime
      = (((shiftGroupRows temp k).filterMap (fun r => r.starttime)).min?).getD 0 - 3600 := by
    show (((shiftGroupRows temp k).filterMap
        (fun r => r.starttime.map (· - 3600))).min?).getD 0 = _
    rw [show ((shiftGroupRows temp k).filterMap (fun r => r.starttime.map (· - 3600)))
        = ((shiftGroupRows temp k).filterMap (fun r => r.starttime)).map (· - 3600) from
      (List.map_filterMap _ _ _).symm]
    rw [min?_map_mono _ (fun a b h => Nat.sub_le_sub_right h 3600)]
    cases ((shiftGroupRows temp k).filterMap (fun r => r.starttime)).min? <;> simp
  have hend : (mkShift now k (shiftGroupRows temp k)).endtime
      = (((shiftGroupRows temp k).filterMap (fun r => r.endtime)).max?).getD 0 + 1800 := by
    show (((shiftGroupRows temp k).filterMap
        (fun r => r.endtime.map (· + 1800))).max?).getD 0 = _
    rw [show ((shiftGroupRows temp k).filterMap (fun r => r.endtime.map (· + 1800)))
        = ((shiftGroupRows temp k).filterMap (fun r => r.endtime)).map (· + 1800) from
      (List.map_filterMap _ _ _).symm]
    rw [max?_map_mono _ (fun a b h => Nat.add_le_add_right h 1800)]
    rcases hne with ⟨r, hr⟩
    rcases hshape r hr with ⟨s, -, -, -, -, -, e, he⟩
    have hmem : e ∈ (shiftGroupRows temp k).filterMap (fun r => r.endtime) :=
      List.mem_filterMap.mpr ⟨r, hr, he⟩
    rcases hx : ((shiftGroupRows temp k).filterMap (fun r => r.endtime)).max? with _ | m
    · rw [List.max?_eq_none_iff] at hx
      rw [hx] at hmem
      cases hmem
    · simp [hx]
  refine ⟨fun r hr => ?_, hstart, hend, rfl, List.mem_map_of_mem _ hk⟩
  rcases hshape r hr with ⟨s, h1, h2, h3, h4, h5, -⟩
  exact ⟨s, h1, h2, h3, h4, h5⟩

/-- Witness for C9: two staged rows of one duty group (day 20000, windows
10:00–12:00 and 13:00–15:00) aggregate to a 09:00–15:30 shift carrying
both external ids. -/
theorem crew_shift_aggregation_witness :
    shiftKeyW ∈ shiftGroups crewTempW ∧
    (mkShift 77 shiftKeyW (shiftGroupRows crewTempW shiftKeyW)).starttime = 1728032400 ∧
    (mkShift 77 shiftKeyW (shiftGroupRows crewTempW shiftKeyW)).endtime = 1728055800 ∧
    (mkShift 77 shiftKeyW (shiftGroupRows crewTempW shiftKeyW)).fmsid = "leg-20,leg-21" := by
  have h := crew_shift_aggregation 77 crewTempW shiftKeyW (by decide)
  refine ⟨by decide, ?_, ?_, ?_⟩
  · rw [h.2.1]; decide
  · rw [h.2.2.1]; decide
  · rw [h.2.2.2.1]; decide

/-! ### Keyed-table lemmas -/

/-- Replacing every row of key `key r` leaves lookups of other keys alone. -/
lemma find?_map_replace {α : Type} (key : α → Nat) (r : α) (t : List α) (i : Nat)
    (h : key r ≠ i) :
    (t.map (fun x => if key x == key r then r else x)).find? (fun x => key x == i)
      = t.find? (fun x => key x == i) := by
  induction t with
  | nil => rfl
  | cons a t ih =>
    rw [List.map_cons, List.find?_cons, List.find?_cons]
    by_cases ha : key a == key r
    · rw [if_pos ha]
      have hak : key a = key r := beq_iff_eq.mp ha
      have h1 : (key a == i) = false := by simp [hak, h]
      have h2 : (key r == i) = false := by simp [h]
      rw [h1, h2, ih]
    · rw [if_neg ha, ih]

/-- Replacing every row of key `key r` makes lookups of that key find `r`,
provided some row with that key exists. -/
lemma find?_map_replace_hit {α : Type} (key : α → Nat) (r : α) (t : List α)
    (h : ∃ x ∈ t, key x = key r) :
    (t.map (fun x => if key x == key r then r else x)).find? (fun x => key x == key r)
      = some r := by
  induction t with
  | nil => rcases h with ⟨x, hx, -⟩; cases hx
  | cons a t ih =>
    rw [List.map_cons, List.find?_cons]
    by_cases ha : key a == key r
    · rw [if_pos ha]
      have : (key r == key r) = true := by simp
      rw [this]
    · rw [if_neg ha]
      have hne : (key a == key r) = false := by simpa using ha
      rw [hne]
      apply ih
      rcases h with ⟨x, hx, hxr⟩
      rcases List.mem_cons.mp hx with rfl | hx
      · exact absurd (by simp [hxr]) ha
      · exact ⟨x, hx, hxr⟩

/-- Lookup after a single upsert: the staged row wins on its own key. -/
lemma findRow_upsertRow {α : Type} (key : α → Nat) (t : List α) (r : α) (i : Nat) :
    findRow key (upsertRow key t r) i = if key r = i then some r else findRow key t i := by
  rw [upsertRow]
  by_cases hany : t.any (fun x => key x == key r)
  · rw [if_pos hany]
    rcases List.any_eq_true.mp hany with ⟨x, hx, hxr⟩
    by_cases hi : key r = i
    · subst hi
      rw [if_pos rfl, findRow, find?_map_replace_hit key r t ⟨x, hx, by simpa using hxr⟩]
    · rw [if_neg hi, findRow, findRow, find?_map_replace key r t i hi]
  · rw [if_neg hany, findRow, findRow, List.find?_append]
    by_cases hi : key r = i
    · subst hi
      have hnone : t.find? (fun x => key x == key r) = none := by
        rw [List.find?_eq_none]
        intro x hx hbx
        exact hany (List.any_eq_true.mpr ⟨x, hx, hbx⟩)
      rw [if_pos rfl, hnone]
      simp [List.find?_cons]
    · rw [if_neg hi]
      have hsingle : List.find? (fun x => key x == i) [r] = none := by
        simp [List.find?_cons, hi]
      rw [hsingle, Option.or_none]

/-- Keyed lookup distributes over append. -/
lemma findRow_append {α : Type} (key : α → Nat) (l1 l2 : List α) (i : Nat) :
    findRow key (l1 ++ l2) i = (findRow key l1 i).or (findRow key l2 i) := by
  simp only [findRow, List.find?_append]

/-- Lookup after upserting a whole staged list: the last staged row of the
key wins, else the base table's row. -/
lemma findRow_upsertAll {α : Type} (key : α → Nat) (rows : List α) :
    ∀ (base : List α) (i : Nat),
      findRow key (upsertAll key rows base) i
        = (findRow key rows.reverse i).or (findRow key base i) := by
  induction rows with
  | nil => intro base i; simp [upsertAll, findRow]
  | cons r rows ih =>
    intro base i
    rw [upsertAll, List.foldl_cons, show rows.foldl (upsertRow key) (upsertRow key base r)
        = upsertAll key rows (upsertRow key base r) from rfl, ih]
    rw [List.reverse_cons, findRow_append, findRow_upsertRow]
    by_cases hlast : (findRow key rows.reverse i).isSome
    · rcases Option.isSome_iff_exists.mp hlast with ⟨x, hx⟩
      rw [hx]
      rfl
    · rw [Option.not_isSome_iff_eq_none.mp hlast]
      by_cases hi : key r = i
      · subst hi
        have hone : findRow key [r] (key r) = some r := by
          rw [findRow, List.find?_cons_of_pos _ (by simp)]
        rw [if_pos rfl, hone]
        rfl
      · have hone : findRow key [r] i = none := by
          rw [findRow, List.find?_cons_of_neg _ (by simp [hi])]
          rfl
        rw [if_neg hi, hone]
        rfl

/-- An upsert keeps the key column duplicate-free. -/
lemma nodupKeys_upsertRow {α : Type} (key : α → Nat) (t : List α) (r : α)
    (h : nodupKeys key t) : nodupKeys key (upsertRow key t r) := by
  rw [upsertRow]
  by_cases hany : t.any (fun x => key x == key r)
  · rw [if_pos hany, nodupKeys, List.map_map]
    have : t.map (key ∘ fun x => if key x == key r then r else x) = t.map key := by
      apply List.map_congr_left
      intro x hx
      by_cases hxr : key x == key r
      · simp only [Function.comp, if_pos hxr]
        exact (beq_iff_eq.mp hxr).symm
      · simp only [Function.comp, if_neg hxr]
    rw [this]
    exact h
  · rw [if_neg hany, nodupKeys, List.map_append]
    rw [List.nodup_append]
    refine ⟨h, List.nodup_singleton _, ?_⟩
    intro x hx hxr
    rcases List.mem_map.mp hx with ⟨y, hy, rfl⟩
    have hyr : key y = key r := by simpa using hxr
    exact hany (List.any_eq_true.mpr ⟨y, hy, by simp [hyr]⟩)

/-- Upserting a staged list keeps the key column duplicate-free. -/
lemma nodupKeys_upsertAll {α : Type} (key : α → Nat) (rows : List α) :
    ∀ (base : List α), nodupKeys key base → nodupKeys key (upsertAll key rows base) := by
  induction rows with
  | nil => intro base h; exact h
  | cons r rows ih =>
    intro base h
    rw [upsertAll, List.foldl_cons]
    exact ih _ (nodupKeys_upsertRow key base r h)

/-- Filtering keeps the key column duplicate-free. -/
lemma nodupKeys_filter {α : Type} (key : α → Nat) (p : α → Bool) (t : List α)
    (h : nodupKeys key t) : nodupKeys key (t.filter p) :=
  List.Nodup.sublist (List.Sublist.map key (List.filter_sublist t)) h

/-- A key-preserving row map keeps the key column duplicate-free. -/
lemma nodupKeys_map {α : Type} (key : α → Nat) (f : α → α) (t : List α)
    (hf : ∀ x, key (f x) = key x) (h : nodupKeys key t) : nodupKeys key (t.map f) := by
  rw [nodupKeys, List.map_map]
  have : t.map (key ∘ f) = t.map key := List.map_congr_left (fun x _ => hf x)
  rw [this]
  exact h


/-- Keyed lookup on a cons cell. -/
lemma findRow_cons {α : Type} (key : α → Nat) (a : α) (t : List α) (i : Nat) :
    findRow key (a :: t) i = if key a = i then some a else findRow key t i := by
  by_cases hai : key a = i
  · rw [if_pos hai, findRow,
      @List.find?_cons_of_pos α (fun x => key x == i) a t (by simp [hai])]
  · rw [if_neg hai, findRow,
      @List.find?_cons_of_neg α (fun x => key x == i) a t (by simp [hai])]
    rfl

/-- Lookup in a filtered keyed table (unique keys): the base table's row,
kept only when it passes the filter. -/
lemma findRow_filter {α : Type} (key : α → Nat) (p : α → Bool) :
    ∀ (t : List α) (i : Nat), nodupKeys key t →
      findRow key (t.filter p) i
        = match findRow key t i with
          | some r => if p r then some r else none
          | none => none := by
  intro t
  induction t with
  | nil => intro i _; rfl
  | cons a t ih =>
    intro i h
    have hnd : nodupKeys key t := (List.nodup_cons.mp h).2
    have hka : key a ∉ t.map key := (List.nodup_cons.mp h).1
    by_cases hai : key a = i
    · have htail : findRow key t i = none := by
        rw [findRow, List.find?_eq_none]
        intro x hx hbx
        exact hka (hai ▸ beq_iff_eq.mp hbx ▸ List.mem_map_of_mem key hx)
      by_cases hpa : p a
      · simp [List.filter_cons, hpa, findRow_cons, hai]
      · simp [List.filter_cons, hpa, findRow_cons, hai, ih i hnd, htail]
    · by_cases hpa : p a
      · simp [List.filter_cons, hpa, findRow_cons, hai, ih i hnd]
      · simp [List.filter_cons, hpa, findRow_cons, hai, ih i hnd]

/-- A keyed lookup hit is a member carrying that key. -/
lemma findRow_spec {α : Type} (key : α → Nat) (t : List α) (i : Nat) (r : α)
    (h : findRow key t i = some r) : r ∈ t ∧ key r = i :=
  ⟨@List.mem_of_find?_eq_some α (fun x => key x == i) r t h,
   beq_iff_eq.mp (@List.find?_some α (fun x => key x == i) r t h)⟩

/-- With unique keys, membership is exactly a lookup hit on the own key. -/
lemma mem_iff_findRow {α : Type} (key : α → Nat) :
    ∀ (t : List α), nodupKeys key t → ∀ (r : α), r ∈ t ↔ findRow key t (key r) = some r := by
  intro t
  induction t with
  | nil => intro _ r; simp [findRow]
  | cons a t ih =>
    intro h r
    have hnd : nodupKeys key t := (List.nodup_cons.mp h).2
    have hka : key a ∉ t.map key := (List.nodup_cons.mp h).1
    rw [findRow_cons]
    constructor
    · intro hr
      rcases List.mem_cons.mp hr with rfl | hr
      · rw [if_pos rfl]
      · have hne : key a ≠ key r := fun he =>
          hka (he ▸ List.mem_map_of_mem key hr)
        rw [if_neg hne]
        exact (ih hnd r).mp hr
    · intro hfind
      by_cases hne : key a = key r
      · rw [if_pos hne] at hfind
        cases hfind
        exact List.mem_cons_self _ _
      · rw [if_neg hne] at hfind
        exact List.mem_cons_of_mem _ ((ih hnd r).mpr hfind)

/-- Two keyed tables with unique keys and identical lookups are equal as
multisets (same rows, same row count, any order). -/
lemma perm_of_findRow_eq {α : Type} [DecidableEq α] (key : α → Nat) (A B : List α)
    (hA : nodupKeys key A) (hB : nodupKeys key B)
    (h : ∀ i, findRow key A i = findRow key B i) : A.Perm B := by
  rw [List.perm_iff_count]
  intro r
  have hAn : A.Nodup := List.Nodup.of_map key hA
  have hBn : B.Nodup := List.Nodup.of_map key hB
  by_cases hr : r ∈ A
  · have hrB : r ∈ B := (mem_iff_findRow key B hB r).mpr (h (key r) ▸ (mem_iff_findRow key A hA r).mp hr)
    rw [List.count_eq_one_of_mem hAn hr, List.count_eq_one_of_mem hBn hrB]
  · have hrB : r ∉ B := fun hb =>
      hr ((mem_iff_findRow key A hA r).mpr ((h (key r)).symm ▸ (mem_iff_findRow key B hB r).mp hb))
    rw [List.count_eq_zero.mpr hr, List.count_eq_zero.mpr hrB]

/-- Existence of a row with a key is a lookup hit. -/
lemma exists_key_iff_findRow_isSome {α : Type} (key : α → Nat) (t : List α) (i : Nat) :
    (∃ r ∈ t, key r = i) ↔ (findRow key t i).isSome := by
  rw [findRow, List.find?_isSome]
  simp

/-- Every row of an upsert result is a staged row or a base row. -/
lemma mem_upsertRow {α : Type} (key : α → Nat) (t : List α) (r d : α)
    (h : d ∈ upsertRow key t r) : d = r ∨ d ∈ t := by
  rw [upsertRow] at h
  by_cases hany : t.any (fun x => key x == key r)
  · rw [if_pos hany] at h
    rcases List.mem_map.mp h with ⟨x, hx, rfl⟩
    by_cases hxr : (key x == key r) = true
    · rw [if_pos hxr]; exact Or.inl rfl
    · rw [if_neg hxr]; exact Or.inr hx
  · rw [if_neg hany] at h
    rcases List.mem_append.mp h with hx | hx
    · exact Or.inr hx
    · exact Or.inl (List.mem_singleton.mp hx)

/-- Every row of an upsert-all result is a staged row or a base row. -/
lemma mem_upsertAll {α : Type} (key : α → Nat) (rows : List α) :
    ∀ (base : List α) (d : α), d ∈ upsertAll key rows base → d ∈ rows ∨ d ∈ base := by
  induction rows with
  | nil => intro base d h; exact Or.inr h
  | cons r rows ih =>
    intro base d h
    rw [upsertAll, List.foldl_cons] at h
    rcases ih (upsertRow key base r) d h with hd | hd
    · exact Or.inl (List.mem_cons_of_mem _ hd)
    · rcases mem_upsertRow key base r d hd with rfl | hd
      · exact Or.inl (List.mem_cons_self _ _)
      · exact Or.inr hd

/-- Unique keys identify rows. -/
lemma eq_of_mem_nodupKeys {α : Type} (key : α → Nat) (t : List α) (h : nodupKeys key t)
    {a b : α} (ha : a ∈ t) (hb : b ∈ t) (hk : key a = key b) : a = b := by
  have h1 := (mem_iff_findRow key t h a).mp ha
  have h2 := (mem_iff_findRow key t h b).mp hb
  rw [hk, h2] at h1
  exact (Option.some.inj h1).symm

/-- C6: after the demand load step, a demand row with a staged movement
row's id exists iff that staged row has `isposition = 0`; the insert's only
filter is `isposition = 0` (in particular no passenger-count threshold —
the staged rows here carry arbitrary `numberpassenger`).  For an
incremental load this needs the stale-row hygiene precondition that
pre-existing demand rows sharing a staged id lie inside the cleared
datetime scope. -/
theorem demand_exists_iff_isposition_zero (is_initial : Bool) (s e : Nat) (st : DBState)
    (hT : nodupKeys (fun m : MovementRow => m.id) st.movementTemp)
    (hclean : is_initial = true ∨
      ∀ d ∈ st.demand, ∀ r ∈ st.movementTemp, d.id = r.id →
        inClearScope s e d.outtime = true) :
    ∀ r ∈ st.movementTemp,
      ((∃ d ∈ (load_qualifying_flights_to_demand is_initial s e st).2.demand, d.id = r.id)
        ↔ r.isposition = 0) := by
  intro r hr
  have hpost : (load_qualifying_flights_to_demand is_initial s e st).2.demand
      = upsertAll (fun d : DemandRow => d.id) (qualifyingDemand st.movementTemp)
          (clear_table is_initial s e (fun d : DemandRow => d.outtime) st.demand) := rfl
  constructor
  · rintro ⟨d, hd, hdi⟩
    rw [hpost] at hd
    rcases mem_upsertAll _ _ _ d hd with hq | hb
    · rcases List.mem_map.mp hq with ⟨r', hr', rfl⟩
      have hr'mem : r' ∈ st.movementTemp := (List.mem_filter.mp hr').1
      have hr'pos : r'.isposition = 0 := of_decide_eq_true (List.mem_filter.mp hr').2
      have : r' = r := eq_of_mem_nodupKeys (fun m : MovementRow => m.id) st.movementTemp hT
        hr'mem hr (by simpa [movementToDemand] using hdi)
      rw [← this]
      exact hr'pos
    · rcases heq : is_initial with _ | _
      · rw [heq] at hb
        rw [clear_table, if_neg (by simp)] at hb
        have hdm : d ∈ st.demand := (List.mem_filter.mp hb).1
        have hdscope : inClearScope s e d.outtime = false := by
          have := (List.mem_filter.mp hb).2
          simpa using this
        rcases hclean with hini | hclean
        · cases heq ▸ hini
        · rw [hclean d hdm r hr hdi] at hdscope
          cases hdscope
      · rw [heq] at hb
        rw [clear_table, if_pos rfl] at hb
        cases hb
  · intro hpos
    rw [hpost]
    have hq : movementToDemand r ∈ qualifyingDemand st.movementTemp :=
      List.mem_map_of_mem _ (List.mem_filter.mpr ⟨hr, decide_eq_true hpos⟩)
    have hsome : (findRow (fun d : DemandRow => d.id)
        ((qualifyingDemand st.movementTemp).reverse) r.id).isSome := by
      rw [← exists_key_iff_findRow_isSome]
      exact ⟨movementToDemand r, List.mem_reverse.mpr hq, rfl⟩
    rcases Option.isSome_iff_exists.mp hsome with ⟨d0, hd0⟩
    have hfind := findRow_upsertAll (fun d : DemandRow => d.id)
      (qualifyingDemand st.movementTemp)
      (clear_table is_initial s e (fun d : DemandRow => d.outtime) st.demand) r.id
    rw [hd0] at hfind
    have hspec := findRow_spec (fun d : DemandRow => d.id) _ r.id d0 hfind
    exact ⟨d0, hspec.1, hspec.2⟩

/-- Witness for C6: in a staging table holding one qualifying and one
position-leg row (both with `numberpassenger = 2`), the demand step yields
a demand row for the qualifying row's id and none for the position row's. -/
theorem demand_exists_iff_isposition_zero_witness :
    (∃ d ∈ (load_qualifying_flights_to_demand false 19990 20000 demandStateW).2.demand,
      d.id = movementRowEndDay.id) ∧
    ¬ (∃ d ∈ (load_qualifying_flights_to_demand false 19990 20000 demandStateW).2.demand,
      d.id = movementRowPosition.id) := by
  have h := demand_exists_iff_isposition_zero false 19990 20000 demandStateW
    (by unfold nodupKeys; decide) (Or.inr (by intro d hd; cases hd))
  constructor
  · exact (h movementRowEndDay (by decide)).mpr (by decide)
  · intro hex
    have := (h movementRowPosition (by decide)).mp hex
    simp [movementRowPosition] at this

/-- C5 counterexample: called with `None` flight data the entry point does
not return counts of 0 — it raises (`collect_lookup_sets`, its first step,
iterates over the argument and `None` is not iterable). -/
theorem process_flight_schedules_none_raises :
    process_flight_schedules dbRefNone acLookupsNone tripFetchNone 0 none false 0 10 emptyDB
      = Except.error "TypeError: argument of type NoneType is not iterable" := rfl

/-- C5 (amended): with an empty record list the entry point returns
normally with a count of 0 for every stage, provided the movement staging
table is empty at entry (the early return skips the staging truncate, so a
non-empty leftover staging table would be re-ported); with `None` it
raises a `TypeError` instead. -/
theorem process_flight_schedules_empty_list (db : DbRefMaps) (acLk : AircraftLookups)
    (tf : String → Option (List TripLeg)) (now : Nat) (is_initial : Bool) (s e : Nat)
    (st : DBState) (hT : st.movementTemp = []) :
    process_flight_schedules db acLk tf now (some []) is_initial s e st
      = Except.ok (zeroLoadCounts,
          { st with
              movement :=
                clear_table is_initial s e (fun r : MovementRow => r.outtime) st.movement
              demand :=
                clear_table is_initial s e (fun d : DemandRow => d.outtime) st.demand }) := by
  rcases st with ⟨mt, mv, dm, ct, ca⟩
  simp only at hT
  subst hT
  rfl

/-- Witness for C5's amended statement at the empty state. -/
theorem process_flight_schedules_empty_list_witness :
    process_flight_schedules dbRefNone acLookupsNone tripFetchNone 5 (some []) false 0 10 emptyDB
      = Except.ok (zeroLoadCounts,
          { emptyDB with
              movement :=
                clear_table false 0 10 (fun r : MovementRow => r.outtime) emptyDB.movement
              demand :=
                clear_table false 0 10 (fun d : DemandRow => d.outtime) emptyDB.demand }) :=
  process_flight_schedules_empty_list dbRefNone acLookupsNone tripFetchNone 5 false 0 10
    emptyDB rfl

/-! ### Wall-clock independence of the transform (given parseable create
dates) and the shape of the staged-load steps -/

/-- With a present (parseable) `createDate`, the extractor does not read
the wall clock. -/
lemma extract_now_eq (now1 now2 : Nat) (f : Flight) (h : f.createDate.isSome) :
    extract_shared_flight_data now1 f = extract_shared_flight_data now2 f := by
  rcases hc : f.createDate with _ | t
  · rw [hc] at h; cases h
  · simp [extract_shared_flight_data, hc]

/-- Fold congruence for functions agreeing on the list's elements. -/
lemma foldl_congr_mem {α β : Type} (l : List α) (f g : β → α → β)
    (h : ∀ b, ∀ a ∈ l, f b a = g b a) : ∀ b, l.foldl f b = l.foldl g b := by
  induction l with
  | nil => intro b; rfl
  | cons a l ih =>
    intro b
    rw [List.foldl_cons, List.foldl_cons, h b a (List.mem_cons_self _ _)]
    exact ih (fun b x hx => h b x (List.mem_cons_of_mem _ hx)) _

/-- With parseable create dates the collected lookup sets do not depend on
the wall clock. -/
lemma collect_lookup_sets_now_eq (now1 now2 : Nat) (fd : List Flight)
    (h : ∀ f ∈ fd, f.createDate.isSome) :
    collect_lookup_sets now1 fd = collect_lookup_sets now2 fd := by
  rw [collect_lookup_sets, collect_lookup_sets]
  apply foldl_congr_mem
  intro acc f hf
  rw [extract_now_eq now1 now2 f (h f hf)]

/-- With parseable create dates the transform does not depend on the wall
clock. -/
lemma transform_flight_data_now_eq (now1 now2 : Nat) (fd : List Flight) (lk : Lookups)
    (h : ∀ f ∈ fd, f.createDate.isSome) :
    transform_flight_data now1 fd lk = transform_flight_data now2 fd lk := by
  rw [transform_flight_data, transform_flight_data]
  apply foldl_congr_mem
  intro acc f hf
  rw [transformStep, transformStep, flightContrib, flightContrib,
    extract_now_eq now1 now2 f (h f hf)]

/-- With parseable create dates the staged movements do not depend on the
wall clock. -/
lemma transformedMovements_now_eq (db : DbRefMaps) (now1 now2 : Nat) (fd : List Flight)
    (h : ∀ f ∈ fd, f.createDate.isSome) :
    transformedMovements db now1 fd = transformedMovements db now2 fd := by
  rw [transformedMovements, transformedMovements, pipelineLookups, pipelineLookups,
    collect_lookup_sets_now_eq now1 now2 fd h,
    transform_flight_data_now_eq now1 now2 fd _ h]

/-- With parseable create dates the staging result does not depend on the
wall clock (only on the prior staging contents). -/
lemma stagedMovements_now_eq (db : DbRefMaps) (now1 now2 : Nat) (fd : List Flight)
    (st : DBState) (h : ∀ f ∈ fd, f.createDate.isSome) :
    stagedMovements db now1 fd st = stagedMovements db now2 fd st := by
  rw [stagedMovements, stagedMovements, transformedMovements_now_eq db now1 now2 fd h]

/-- An empty triple set collects no updates. -/
lemma demandUpdatesOf_empty (acLk : AircraftLookups) (tf : String → Option (List TripLeg))
    (temp : List MovementRow) (h : demandRecordTriples temp = []) :
    demandUpdatesOf acLk tf temp = [] := by
  rw [demandUpdatesOf, h]
  rfl

/-- State shape of the movement staging step. -/
lemma load_to_movement_temp_snd (recs : List MovementRow) (st : DBState) :
    (load_to_movement_temp recs st).2
      = { st with movementTemp := if recs = [] then st.movementTemp else recs } := by
  by_cases h : recs = []
  · rw [load_to_movement_temp, if_pos h, if_pos h]
  · rw [load_to_movement_temp, if_neg h, if_neg h]

/-- State shape of the crew-assignment staging step. -/
lemma load_crew_assignments_snd (recs : List CrewTempRow) (st : DBState) :
    (load_crew_assignments recs st).2
      = { st with crewTemp := if recs = [] then st.crewTemp else recs } := by
  by_cases h : recs = []
  · rw [load_crew_assignments, if_pos h, if_pos h]
  · rw [load_crew_assignments, if_neg h, if_neg h]

/-- State shape of the movement port step. -/
lemma port_movement_temp_to_movement_snd (ii : Bool) (s e : Nat) (st : DBState) :
    (port_movement_temp_to_movement ii s e st).2
      = { st with
            movement :=
              upsertAll (fun r : MovementRow => r.id) st.movementTemp
                (clear_table ii s e (fun r : MovementRow => r.outtime) st.movement) } := rfl

/-- State shape of the demand load step. -/
lemma load_qualifying_flights_to_demand_snd (ii : Bool) (s e : Nat) (st : DBState) :
    (load_qualifying_flights_to_demand ii s e st).2
      = { st with
            demand :=
              upsertAll (fun d : DemandRow => d.id) (qualifyingDemand st.movementTemp)
                (clear_table ii s e (fun d : DemandRow => d.outtime) st.demand) } := rfl

/-- State shape of the demand enrichment step. -/
lemma populate_demand_aircraft_requests_snd (tf : String → Option (List TripLeg))
    (acLk : AircraftLookups) (st : DBState) :
    (populate_demand_aircraft_requests tf acLk st).2
      = { st with
            demand :=
              applyDemandUpdates (demandUpdatesOf acLk tf st.movementTemp) st.demand } := by
  rw [populate_demand_aircraft_requests]
  by_cases h : demandRecordTriples st.movementTemp = []
  · rw [if_pos h, demandUpdatesOf_empty acLk tf _ h]
    rfl
  · rw [if_neg h]

/-- State shape of the crew-shift transfer step. -/
lemma transfer_temp_to_target_snd (now mn mx : Nat) (st : DBState) :
    (transfer_temp_to_target now mn mx st).2
      = { st with
            crewassignment :=
              (st.crewassignment.filter (fun sh =>
                  !(decide (mn ≤ sh.dutydate) && decide (sh.dutydate ≤ mx))))
                ++ crewShiftRows now st.crewTemp
            crewTemp := [] } := rfl

/-- The pipeline's effect on the staging, movement and demand tables: the
staging step installs `stagedMovements`; the port step upserts it over the
date-scope-cleared movement table; the demand step upserts its qualifying
projection over the date-scope-cleared demand table and the enrichment
pass applies the collected updates.  (The crew steps touch only the crew
tables.) -/
lemma run_flight_schedules_fields (db : DbRefMaps) (acLk : AircraftLookups)
    (tf : String → Option (List TripLeg)) (now : Nat) (fd : List Flight)
    (ii : Bool) (s e : Nat) (st : DBState) :
    ((run_flight_schedules db acLk tf now fd ii s e st).2.movementTemp
        = stagedMovements db now fd st) ∧
    ((run_flight_schedules db acLk tf now fd ii s e st).2.movement
        = upsertAll (fun r : MovementRow => r.id) (stagedMovements db now fd st)
            (clear_table ii s e (fun r : MovementRow => r.outtime) st.movement)) ∧
    ((run_flight_schedules db acLk tf now fd ii s e st).2.demand
        = applyDemandUpdates (demandUpdatesOf acLk tf (stagedMovements db now fd st))
            (upsertAll (fun d : DemandRow => d.id)
              (qualifyingDemand (stagedMovements db now fd st))
              (clear_table ii s e (fun d : DemandRow => d.outtime) st.demand))) := by
  rcases hdr : get_flight_date_range fd with ⟨mn, mx⟩
  rcases mn with _ | mnv <;> rcases mx with _ | mxv <;>
    refine ⟨?_, ?_, ?_⟩ <;>
      simp [run_flight_schedules, hdr, load_to_movement_temp_snd, load_crew_assignments_snd,
        port_movement_temp_to_movement_snd, load_qualifying_flights_to_demand_snd,
        populate_demand_aircraft_requests_snd, transfer_temp_to_target_snd,
        stagedMovements, transformedMovements, pipelineLookups]

/-- A single demand update preserves the row's id. -/
lemma setDemandRequest_id (u : DemandUpdate) (d : DemandRow) :
    (setDemandRequest u d).id = d.id := by
  rw [setDemandRequest]; split <;> rfl

/-- A single demand update preserves the row's `outtime`. -/
lemma setDemandRequest_outtime (u : DemandUpdate) (d : DemandRow) :
    (setDemandRequest u d).outtime = d.outtime := by
  rw [setDemandRequest]; split <;> rfl

/-- The composite update preserves the row's id. -/
lemma updFn_id (U : List DemandUpdate) : ∀ d : DemandRow, (updFn U d).id = d.id := by
  induction U with
  | nil => intro d; rfl
  | cons u U ih =>
    intro d
    rw [updFn, List.foldl_cons]
    rw [show U.foldl (fun x u => setDemandRequest u x) (setDemandRequest u d)
        = updFn U (setDemandRequest u d) from rfl]
    rw [ih (setDemandRequest u d), setDemandRequest_id]

/-- The composite update preserves the row's `outtime`. -/
lemma updFn_outtime (U : List DemandUpdate) :
    ∀ d : DemandRow, (updFn U d).outtime = d.outtime := by
  induction U with
  | nil => intro d; rfl
  | cons u U ih =>
    intro d
    rw [updFn, List.foldl_cons]
    rw [show U.foldl (fun x u => setDemandRequest u x) (setDemandRequest u d)
        = updFn U (setDemandRequest u d) from rfl]
    rw [ih (setDemandRequest u d), setDemandRequest_outtime]

/-- Overriding the request fields of an already-updated row is the same as
overriding the original row's. -/
lemma setDemandRequest_override (u : DemandUpdate) (d : DemandRow) (t c : Option Nat) :
    ({ setDemandRequest u d with
        requestaircrafttypeid := t
        requestaircraftcategoryid := c })
      = { d with requestaircrafttypeid := t, requestaircraftcategoryid := c } := by
  rw [setDemandRequest]; split <;> rfl

/-- The composite update is determined by the last matching update: it
overrides the request fields with that update's values (and does nothing
when no update matches the row's id). -/
lemma updFn_char (U : List DemandUpdate) : ∀ d : DemandRow,
    updFn U d = match U.reverse.find? (fun u => u.demandid == d.id) with
      | some u => { d with requestaircrafttypeid := u.type_id,
                           requestaircraftcategoryid := u.category_id }
      | none => d := by
  induction U with
  | nil => intro d; rfl
  | cons u U ih =>
    intro d
    rw [updFn, List.foldl_cons]
    rw [show U.foldl (fun x u => setDemandRequest u x) (setDemandRequest u d)
        = updFn U (setDemandRequest u d) from rfl]
    rw [ih (setDemandRequest u d), List.reverse_cons, List.find?_append,
      setDemandRequest_id]
    rcases hf : U.reverse.find? (fun x => x.demandid == d.id) with _ | u1
    · rw [hf]
      rcases hu : (u.demandid == d.id) with _ | _
      · have h1 : List.find? (fun x => x.demandid == d.id) [u] = none := by
          simp [List.find?, hu]
        rw [h1]
        show setDemandRequest u d = d
        rw [setDemandRequest, if_neg (fun he : d.id = u.demandid => by simp [he] at hu)]
      · have h1 : List.find? (fun x => x.demandid == d.id) [u] = some u := by
          simp [List.find?, hu]
        rw [h1]
        show setDemandRequest u d = _
        rw [setDemandRequest, if_pos (beq_iff_eq.mp hu).symm]
        rfl
    · rw [hf, setDemandRequest]
      by_cases hud : d.id = u.demandid
      · simp [if_pos hud]
      · simp [if_neg hud]

/-- Applying the same update list twice is the same as applying it once. -/
lemma updFn_idem (U : List DemandUpdate) (d : DemandRow) :
    updFn U (updFn U d) = updFn U d := by
  have hid : (updFn U d).id = d.id := updFn_id U d
  rw [updFn_char U (updFn U d), hid]
  rcases hf : U.reverse.find? (fun u => u.demandid == d.id) with _ | u
  · rw [hf]
  · rw [hf, updFn_char U d, hf]

/-- Applying an update list is mapping its composite row effect. -/
lemma applyDemandUpdates_eq_map (U : List DemandUpdate) :
    ∀ D : List DemandRow, applyDemandUpdates U D = D.map (updFn U) := by
  induction U with
  | nil =>
    intro D
    rw [applyDemandUpdates]
    rw [show D.map (updFn []) = D.map (fun d => d) from rfl]
    rw [List.map_id']
    rfl
  | cons u U ih =>
    intro D
    rw [applyDemandUpdates, List.foldl_cons]
    rw [show U.foldl (fun dem u => dem.map (setDemandRequest u)) (D.map (setDemandRequest u))
        = applyDemandUpdates U (D.map (setDemandRequest u)) from rfl]
    rw [ih (D.map (setDemandRequest u)), List.map_map]
    rfl

/-- Keyed lookup commutes with a key-preserving row map. -/
lemma findRow_map {α : Type} (key : α → Nat) (φ : α → α) (hφ : ∀ x, key (φ x) = key x) :
    ∀ (t : List α) (i : Nat), findRow key (t.map φ) i = (findRow key t i).map φ := by
  intro t
  induction t with
  | nil => intro i; rfl
  | cons a t ih =>
    intro i
    rw [List.map_cons, findRow_cons, findRow_cons, hφ]
    by_cases hai : key a = i
    · rw [if_pos hai, if_pos hai]
      rfl
    · rw [if_neg hai, if_neg hai, ih]

/-- Re-running "clear the date scope, upsert the staged rows, post-process
rows" on its own output does not change any keyed lookup, provided the
post-processing map preserves keys and the date column and is idempotent.
This is the heart of the upsert-convergence argument: staged keys are
overwritten with identical values and unstaged survivors were already
outside the cleared scope. -/
lemma findRow_upsert_clear_map_idem {α : Type} (key : α → Nat) (dc : α → Option Nat)
    (φ : α → α) (hkey : ∀ x, key (φ x) = key x) (hdc : ∀ x, dc (φ x) = dc x)
    (hidem : ∀ x, φ (φ x) = φ x) (T : List α) (s e : Nat) (base : List α)
    (hb : nodupKeys key base) :
    ∀ i, findRow key ((upsertAll key T (clear_table false s e dc
        ((upsertAll key T (clear_table false s e dc base)).map φ))).map φ) i
      = findRow key ((upsertAll key T (clear_table false s e dc base)).map φ) i := by
  intro i
  have hC : ∀ X : List α, clear_table false s e dc X
      = X.filter (fun r => !(inClearScope s e (dc r))) := fun X => by
    rw [clear_table, if_neg (by simp)]
  have hnb1 : nodupKeys key (clear_table false s e dc base) := by
    rw [hC]; exact nodupKeys_filter _ _ _ hb
  have hn1 : nodupKeys key (upsertAll key T (clear_table false s e dc base)) :=
    nodupKeys_upsertAll key T _ hnb1
  have hn1m : nodupKeys key ((upsertAll key T (clear_table false s e dc base)).map φ) :=
    nodupKeys_map key φ _ hkey hn1
  have hstep1 : findRow key ((upsertAll key T (clear_table false s e dc base)).map φ) i
      = ((findRow key T.reverse i).or (findRow key (clear_table false s e dc base) i)).map φ := by
    rw [findRow_map key φ hkey, findRow_upsertAll]
  have hstep2 : findRow key ((upsertAll key T (clear_table false s e dc
        ((upsertAll key T (clear_table false s e dc base)).map φ))).map φ) i
      = ((findRow key T.reverse i).or (findRow key (clear_table false s e dc
          ((upsertAll key T (clear_table false s e dc base)).map φ)) i)).map φ := by
    rw [findRow_map key φ hkey, findRow_upsertAll]
  rw [hstep1, hstep2]
  rcases hT : findRow key T.reverse i with _ | t
  · simp only [Option.none_or]
    have hval : findRow key ((upsertAll key T (clear_table false s e dc base)).map φ) i
        = (findRow key (clear_table false s e dc base) i).map φ := by
      rw [hstep1, hT]
      simp only [Option.none_or]
    have hinner : findRow key (clear_table false s e dc
        ((upsertAll key T (clear_table false s e dc base)).map φ)) i
        = match findRow key ((upsertAll key T (clear_table false s e dc base)).map φ) i with
          | some r => if !(inClearScope s e (dc r)) then some r else none
          | none => none := by
      rw [hC ((upsertAll key T (clear_table false s e dc base)).map φ),
        findRow_filter key _ _ i hn1m]
    have hbase : findRow key (clear_table false s e dc base) i
        = match findRow key base i with
          | some r => if !(inClearScope s e (dc r)) then some r else none
          | none => none := by
      rw [hC base, findRow_filter key _ _ i hb]
    rw [hinner, hval, hbase]
    rcases hfb : findRow key base i with _ | r
    · rfl
    · by_cases hs : inClearScope s e (dc r)
      · simp [hs]
      · simp [hs, hdc, hidem]
  · rfl

/-- The movement-table instance (no post-processing map). -/
lemma findRow_upsert_clear_idem {α : Type} (key : α → Nat) (dc : α → Option Nat)
    (T : List α) (s e : Nat) (base : List α) (hb : nodupKeys key base) (i : Nat) :
    findRow key (upsertAll key T (clear_table false s e dc
        (upsertAll key T (clear_table false s e dc base)))) i
      = findRow key (upsertAll key T (clear_table false s e dc base)) i := by
  have h := findRow_upsert_clear_map_idem key dc id (fun _ => rfl) (fun _ => rfl)
    (fun _ => rfl) T s e base hb i
  simpa [List.map_id] using h

/-- C2 (amended): re-running `process_flight_schedules` with identical
flight data and identical `(is_initial = false, start, end)` arguments
reaches the same movement and demand tables (same rows, same row count) as
the first run — provided every input leg's `createDate` is present and
parseable.  (Without that proviso the transformer stamps `createtime` with
the run's wall clock, so a re-run rewrites those rows; see the
counterexample.)  The initial tables must satisfy the primary-key
constraint (unique ids). -/
theorem process_flight_schedules_rerun_converges (db : DbRefMaps) (acLk : AircraftLookups)
    (tf : String → Option (List TripLeg)) (now1 now2 : Nat) (fd : List Flight)
    (s e : Nat) (st : DBState) (p1 p2 : LoadCounts × DBState)
    (hM : nodupKeys (fun r : MovementRow => r.id) st.movement)
    (hD : nodupKeys (fun d : DemandRow => d.id) st.demand)
    (hcd : ∀ f ∈ fd, f.createDate.isSome)
    (h1 : process_flight_schedules db acLk tf now1 (some fd) false s e st = Except.ok p1)
    (h2 : process_flight_schedules db acLk tf now2 (some fd) false s e p1.2 = Except.ok p2) :
    p2.2.movement.Perm p1.2.movement ∧ p2.2.demand.Perm p1.2.demand := by
  have e1 : p1 = run_flight_schedules db acLk tf now1 fd false s e st := by
    rw [process_flight_schedules] at h1
    exact (Except.ok.inj h1).symm
  have e2 : p2 = run_flight_schedules db acLk tf now2 fd false s e p1.2 := by
    rw [process_flight_schedules] at h2
    exact (Except.ok.inj h2).symm
  have f1 := run_flight_schedules_fields db acLk tf now1 fd false s e st
  have f2 := run_flight_schedules_fields db acLk tf now2 fd false s e p1.2
  have hstag : stagedMovements db now2 fd p1.2 = stagedMovements db now1 fd st := by
    rw [stagedMovements, stagedMovements, transformedMovements_now_eq db now2 now1 fd hcd]
    by_cases hTM : transformedMovements db now1 fd = []
    · rw [if_pos hTM, if_pos hTM, e1, f1.1, stagedMovements, if_pos hTM]
    · rw [if_neg hTM, if_neg hTM]
  have hCn : ∀ X : List MovementRow, nodupKeys (fun r : MovementRow => r.id) X →
      nodupKeys (fun r : MovementRow => r.id)
        (clear_table false s e (fun r : MovementRow => r.outtime) X) := fun X hX => by
    rw [clear_table, if_neg (by simp)]
    exact nodupKeys_filter _ _ _ hX
  have hCnD : ∀ X : List DemandRow, nodupKeys (fun d : DemandRow => d.id) X →
      nodupKeys (fun d : DemandRow => d.id)
        (clear_table false s e (fun d : DemandRow => d.outtime) X) := fun X hX => by
    rw [clear_table, if_neg (by simp)]
    exact nodupKeys_filter _ _ _ hX
  have hM1 : p1.2.movement = upsertAll (fun r : MovementRow => r.id)
      (stagedMovements db now1 fd st)
      (clear_table false s e (fun r : MovementRow => r.outtime) st.movement) := by
    rw [e1]; exact f1.2.1
  have hM2 : p2.2.movement = upsertAll (fun r : MovementRow => r.id)
      (stagedMovements db now1 fd st)
      (clear_table false s e (fun r : MovementRow => r.outtime) p1.2.movement) := by
    rw [e2, f2.2.1, hstag]
  have hn1 : nodupKeys (fun r : MovementRow => r.id) p1.2.movement := by
    rw [hM1]
    exact nodupKeys_upsertAll _ _ _ (hCn st.movement hM)
  have hn2 : nodupKeys (fun r : MovementRow => r.id) p2.2.movement := by
    rw [hM2]
    exact nodupKeys_upsertAll _ _ _ (hCn p1.2.movement hn1)
  have hD1 : p1.2.demand = (upsertAll (fun d : DemandRow => d.id)
      (qualifyingDemand (stagedMovements db now1 fd st))
      (clear_table false s e (fun d : DemandRow => d.outtime) st.demand)).map
      (updFn (demandUpdatesOf acLk tf (stagedMovements db now1 fd st))) := by
    rw [e1, f1.2.2, applyDemandUpdates_eq_map]
  have hD2 : p2.2.demand = (upsertAll (fun d : DemandRow => d.id)
      (qualifyingDemand (stagedMovements db now1 fd st))
      (clear_table false s e (fun d : DemandRow => d.outtime) p1.2.demand)).map
      (updFn (demandUpdatesOf acLk tf (stagedMovements db now1 fd st))) := by
    rw [e2, f2.2.2, hstag, applyDemandUpdates_eq_map]
  have hn1d : nodupKeys (fun d : DemandRow => d.id) p1.2.demand := by
    rw [hD1]
    exact nodupKeys_map _ _ _
      (updFn_id (demandUpdatesOf acLk tf (stagedMovements db now1 fd st)))
      (nodupKeys_upsertAll _ _ _ (hCnD st.demand hD))
  have hn2d : nodupKeys (fun d : DemandRow => d.id) p2.2.demand := by
    rw [hD2]
    exact nodupKeys_map _ _ _
      (updFn_id (demandUpdatesOf acLk tf (stagedMovements db now1 fd st)))
      (nodupKeys_upsertAll _ _ _ (hCnD p1.2.demand hn1d))
  constructor
  · apply perm_of_findRow_eq (fun r : MovementRow => r.id) _ _ hn2 hn1
    intro i
    rw [hM2, hM1]
    exact findRow_upsert_clear_idem (fun r : MovementRow => r.id)
      (fun r : MovementRow => r.outtime) (stagedMovements db now1 fd st) s e
      st.movement hM i
  · apply perm_of_findRow_eq (fun d : DemandRow => d.id) _ _ hn2d hn1d
    intro i
    rw [hD2, hD1]
    exact findRow_upsert_clear_map_idem (fun d : DemandRow => d.id)
      (fun d : DemandRow => d.outtime)
      (updFn (demandUpdatesOf acLk tf (stagedMovements db now1 fd st)))
      (updFn_id _) (updFn_outtime _) (updFn_idem _)
      (qualifyingDemand (stagedMovements db now1 fd st)) s e st.demand hD i

/-- Witness for C2's amended statement: one leg with a parseable
`createDate` and no tail number, re-run over a state holding a previously
loaded movement row. -/
theorem process_flight_schedules_rerun_converges_witness :
    ((run_flight_schedules dbRefNone acLookupsNone tripFetchNone 8 [flightNoTail]
        false 19990 21000
        (run_flight_schedules dbRefNone acLookupsNone tripFetchNone 7 [flightNoTail]
          false 19990 21000 movementStateW).2).2.movement).Perm
      ((run_flight_schedules dbRefNone acLookupsNone tripFetchNone 7 [flightNoTail]
        false 19990 21000 movementStateW).2.movement) ∧
    ((run_flight_schedules dbRefNone acLookupsNone tripFetchNone 8 [flightNoTail]
        false 19990 21000
        (run_flight_schedules dbRefNone acLookupsNone tripFetchNone 7 [flightNoTail]
          false 19990 21000 movementStateW).2).2.demand).Perm
      ((run_flight_schedules dbRefNone acLookupsNone tripFetchNone 7 [flightNoTail]
        false 19990 21000 movementStateW).2.demand) :=
  process_flight_schedules_rerun_converges dbRefNone acLookupsNone tripFetchNone 7 8
    [flightNoTail] 19990 21000 movementStateW _ _
    (by unfold nodupKeys; decide) (by unfold nodupKeys; decide)
    (by intro f hf; rcases List.mem_singleton.mp hf with rfl; rfl)
    rfl rfl

/-- C2 counterexample: with a leg whose `createDate` is absent, the
transformer stamps `createtime` with the wall clock, so a second run with
identical flight data and arguments rewrites the movement row with a
different `createtime`: both runs leave one movement row, but its
`createtime` column reads 1000 after the first run and 2000 after the
second, so the second run does change the final field values. -/
theorem process_flight_schedules_rerun_counterexample :
    (process_flight_schedules dbRefNone acLookupsNone tripFetchNone 1000
        (some [flightNoCreateDate]) false 0 30000 emptyDB
      = Except.ok (run_flight_schedules dbRefNone acLookupsNone tripFetchNone 1000
          [flightNoCreateDate] false 0 30000 emptyDB)) ∧
    (process_flight_schedules dbRefNone acLookupsNone tripFetchNone 2000
        (some [flightNoCreateDate]) false 0 30000
        (run_flight_schedules dbRefNone acLookupsNone tripFetchNone 1000
          [flightNoCreateDate] false 0 30000 emptyDB).2
      = Except.ok (run_flight_schedules dbRefNone acLookupsNone tripFetchNone 2000
          [flightNoCreateDate] false 0 30000
          (run_flight_schedules dbRefNone acLookupsNone tripFetchNone 1000
            [flightNoCreateDate] false 0 30000 emptyDB).2)) ∧
    ((run_flight_schedules dbRefNone acLookupsNone tripFetchNone 1000
        [flightNoCreateDate] false 0 30000 emptyDB).2.movement.map
        (fun r => r.createtime) = [1000]) ∧
    ((run_flight_schedules dbRefNone acLookupsNone tripFetchNone 2000
        [flightNoCreateDate] false 0 30000
        (run_flight_schedules dbRefNone acLookupsNone tripFetchNone 1000
          [flightNoCreateDate] false 0 30000 emptyDB).2).2.movement.map
        (fun r => r.createtime) = [2000]) ∧
    ((run_flight_schedules dbRefNone acLookupsNone tripFetchNone 2000
        [flightNoCreateDate] false 0 30000
        (run_flight_schedules dbRefNone acLookupsNone tripFetchNone 1000
          [flightNoCreateDate] false 0 30000 emptyDB).2).2.movement.map
        (fun r => r.createtime)
      ≠ (run_flight_schedules dbRefNone acLookupsNone tripFetchNone 1000
        [flightNoCreateDate] false 0 30000 emptyDB).2.movement.map
        (fun r => r.createtime)) := by
  refine ⟨rfl, rfl, ?_, ?_, ?_⟩ <;> decide
